import Mathlib

/-!
Verification development for the STM32MP1 clock-tree controller
(`drivers/st/clk/stm32mp1_clk.c` and the platform glue under `plat/st/`).

The C driver is shallowly embedded: machine integers are `Nat` with an
explicit `% 2 ^ w` wherever the corresponding C expression is computed in a
w-bit unsigned type, memory-mapped registers are a total function from
register offset to (32-bit) value, fallible code returns `Option` /
`Except`, and `panic()` is `Option.none`.

Conventions for integer widths: `unsigned int` and `uint32_t` are 32-bit
(`U32`); `unsigned long long` is 64-bit (`U64`).  The width of
`unsigned long` is fixed by the build target, which is not part of the
sources; the specification states that all PLL rate arithmetic is 64-bit
with truncation toward zero, so `unsigned long` is modelled as 64 bits.
-/

namespace Stm32mp1

/-- Model of 2^32, the modulus of 32-bit unsigned arithmetic. -/
def U32 : Nat := 4294967296

/-- Model of 2^64, the modulus of 64-bit unsigned arithmetic. -/
def U64 : Nat := 18446744073709551616

/-- Value of `UINT_MAX` (32-bit `unsigned int`). -/
def UINT_MAX : Nat := 4294967295

/-! ## Register-field constants

Modelled from the spec: the RCC register layout macros live in
`drivers/st/stm32mp1_rcc.h`, which is not among the provided sources.  The
values below follow the STM32MP1 RCC register map of that header:
DIVN occupies bits 8:0 and DIVM bits 21:16 of `PLLxCFGR1`, with IFRGE at
bits 25:24; DIVP/DIVQ/DIVR occupy 7-bit fields at shifts 0/8/16 of
`PLLxCFGR2`; FRACV occupies bits 15:3 of `PLLxFRACR` with FRACLE at
bit 16; `PLLxCR` has PLLON at bit 0, PLLRDY at bit 1 and the output
enables from bit 4. -/

def RCC_PLLNCFGR1_DIVN_MASK : Nat := 0x1FF
def RCC_PLLNCFGR1_DIVM_SHIFT : Nat := 16
def RCC_PLLNCFGR1_DIVM_MASK : Nat := 0x3F0000
def RCC_PLLNCFGR1_IFRGE_SHIFT : Nat := 24
def RCC_PLLNCFGR1_IFRGE_MASK : Nat := 0x3000000

def RCC_PLLNCFGR2_DIVP_SHIFT : Nat := 0
def RCC_PLLNCFGR2_DIVP_MASK : Nat := 0x7F
def RCC_PLLNCFGR2_DIVQ_SHIFT : Nat := 8
def RCC_PLLNCFGR2_DIVQ_MASK : Nat := 0x7F00
def RCC_PLLNCFGR2_DIVR_SHIFT : Nat := 16
def RCC_PLLNCFGR2_DIVR_MASK : Nat := 0x7F0000
def RCC_PLLNCFGR2_DIVX_MASK : Nat := 0x7F

def RCC_PLLNFRACR_FRACV_SHIFT : Nat := 3
def RCC_PLLNFRACR_FRACV_MASK : Nat := 0xFFF8
def RCC_PLLNFRACR_FRACLE : Nat := 0x10000

def RCC_PLLNCR_PLLON : Nat := 1
def RCC_PLLNCR_PLLRDY : Nat := 2
def RCC_PLLNCR_SSCG_CTRL : Nat := 4
def RCC_PLLNCR_DIVPEN : Nat := 0x10
def RCC_PLLNCR_DIVQEN : Nat := 0x20
def RCC_PLLNCR_DIVREN : Nat := 0x40
def RCC_PLLNCR_DIVEN_SHIFT : Nat := 4

def RCC_SELR_SRC_MASK : Nat := 0x7
def RCC_SELR_REFCLK_SRC_MASK : Nat := 0x3

def RCC_MPCKSELR_HSI : Nat := 0
def RCC_MPCKSELR_HSE : Nat := 1
def RCC_MPCKSELR_PLL : Nat := 2
def RCC_MPCKSELR_PLL_MPUDIV : Nat := 3

def RCC_ASSCKSELR_HSI : Nat := 0
def RCC_ASSCKSELR_HSE : Nat := 1
def RCC_ASSCKSELR_PLL : Nat := 2

def RCC_MSSCKSELR_HSI : Nat := 0
def RCC_MSSCKSELR_HSE : Nat := 1
def RCC_MSSCKSELR_CSI : Nat := 2
def RCC_MSSCKSELR_PLL : Nat := 3

def RCC_CPERCKSELR_HSI : Nat := 0
def RCC_CPERCKSELR_CSI : Nat := 1
def RCC_CPERCKSELR_HSE : Nat := 2

def RCC_MPUDIV_MASK : Nat := 0x7
def RCC_AXIDIV_MASK : Nat := 0x7
def RCC_APBXDIV_MASK : Nat := 0x7
def RCC_MCUDIV_MASK : Nat := 0xF

def RCC_MP_ENCLRR_OFFSET : Nat := 4

/-! ## Register offsets

Modelled from the spec: the numeric offsets come from the RCC register-map
header, which is not among the provided sources.  The driver only uses
them as distinct keys of the memory-mapped register file, which is all the
development relies on. -/

def RCC_TZCR : Nat := 0x00
def RCC_MPCKSELR : Nat := 0x20
def RCC_ASSCKSELR : Nat := 0x24
def RCC_RCK12SELR : Nat := 0x28
def RCC_MPCKDIVR : Nat := 0x2C
def RCC_AXIDIVR : Nat := 0x30
def RCC_APB4DIVR : Nat := 0x3C
def RCC_APB5DIVR : Nat := 0x40
def RCC_RTCDIVR : Nat := 0x44
def RCC_MSSCKSELR : Nat := 0x48
def RCC_PLL1CR : Nat := 0x80
def RCC_PLL1CFGR1 : Nat := 0x84
def RCC_PLL1CFGR2 : Nat := 0x88
def RCC_PLL1FRACR : Nat := 0x8C
def RCC_PLL1CSGR : Nat := 0x90
def RCC_PLL2CR : Nat := 0x94
def RCC_PLL2CFGR1 : Nat := 0x98
def RCC_PLL2CFGR2 : Nat := 0x9C
def RCC_PLL2FRACR : Nat := 0xA0
def RCC_PLL2CSGR : Nat := 0xA4
def RCC_I2C46CKSELR : Nat := 0xC0
def RCC_SPI6CKSELR : Nat := 0xC4
def RCC_UART1CKSELR : Nat := 0xC8
def RCC_RNG1CKSELR : Nat := 0xCC
def RCC_CPERCKSELR : Nat := 0xD0
def RCC_STGENCKSELR : Nat := 0xD4
def RCC_DDRITFCR : Nat := 0xD8
def RCC_BDCR : Nat := 0x140
def RCC_RDLSICR : Nat := 0x144
def RCC_MP_APB4ENSETR : Nat := 0x200
def RCC_MP_APB5ENSETR : Nat := 0x208
def RCC_MP_AHB5ENSETR : Nat := 0x210
def RCC_MP_AHB6ENSETR : Nat := 0x218
def RCC_MP_TZAHB6ENSETR : Nat := 0x220
def RCC_RCK3SELR : Nat := 0x820
def RCC_RCK4SELR : Nat := 0x824
def RCC_MCUDIVR : Nat := 0x830
def RCC_APB1DIVR : Nat := 0x834
def RCC_APB2DIVR : Nat := 0x838
def RCC_APB3DIVR : Nat := 0x83C
def RCC_PLL3CR : Nat := 0x880
def RCC_PLL3CFGR1 : Nat := 0x884
def RCC_PLL3CFGR2 : Nat := 0x888
def RCC_PLL3FRACR : Nat := 0x88C
def RCC_PLL4CR : Nat := 0x894
def RCC_PLL4CFGR1 : Nat := 0x898
def RCC_PLL4CFGR2 : Nat := 0x89C
def RCC_PLL4FRACR : Nat := 0x8A0
def RCC_PLL3CSGR : Nat := 0x890
def RCC_PLL4CSGR : Nat := 0x8A4
def RCC_I2C12CKSELR : Nat := 0x8C0
def RCC_I2C35CKSELR : Nat := 0x8C4
def RCC_UART6CKSELR : Nat := 0x8C8
def RCC_UART24CKSELR : Nat := 0x8CC
def RCC_UART35CKSELR : Nat := 0x8D0
def RCC_UART78CKSELR : Nat := 0x8D4
def RCC_SDMMC12CKSELR : Nat := 0x8D8
def RCC_SDMMC3CKSELR : Nat := 0x8DC
def RCC_QSPICKSELR : Nat := 0x8E0
def RCC_FMCCKSELR : Nat := 0x8E4
def RCC_USBCKSELR : Nat := 0x8E8
def RCC_DBGCFGR : Nat := 0x80C
def RCC_MP_APB1ENSETR : Nat := 0x700
def RCC_MP_APB2ENSETR : Nat := 0x708
def RCC_MP_APB3ENSETR : Nat := 0x710
def RCC_MP_AHB2ENSETR : Nat := 0x718
def RCC_MP_AHB4ENSETR : Nat := 0x728

/-! ## Register file -/

/-- The memory-mapped RCC register bank: a total map from register offset
to stored value. -/
def RegFile : Type := Nat → Nat

/-- Model of `mmio_read_32`: registers are 32 bits wide. -/
def read (regs : RegFile) (off : Nat) : Nat := regs off % U32

/-- Model of `mmio_write_32` on the register file. -/
def write (regs : RegFile) (off v : Nat) : RegFile :=
  fun o => if o = off then v % U32 else regs o

/-! ## Oscillators

The oscillator identifiers are the `enum stm32mp_osc_id` values; the
driver (`stm32mp1_osc[]`) keeps one nominal rate per oscillator. -/

def OSC_HSI : Nat := 0
def OSC_HSE : Nat := 1
def OSC_CSI : Nat := 2
def OSC_LSI : Nat := 3
def OSC_LSE : Nat := 4
def OSC_I2S_CKIN : Nat := 5
def NB_OSC : Nat := 6
def UNKNOWN_OSC_ID : Nat := 0xFF

/-- The `stm32mp1_osc[]` rate table, as a map from oscillator id to Hz. -/
def OscF : Type := Nat → Nat

/-- Model of `stm32mp1_clk_get_fixed`. -/
def stm32mp1_clk_get_fixed (osc : OscF) (idx : Nat) : Nat :=
  if NB_OSC ≤ idx then 0 else osc idx % U32

/-! ## PLL records -/

inductive PllType where
  | PLL_800
  | PLL_1600
deriving DecidableEq

/-- Model of `struct stm32mp1_pll` (characteristics per PLL type). -/
structure PllChar where
  refclk_min : Nat
  refclk_max : Nat
  divn_max : Nat

/-- Model of the `stm32mp1_pll[]` table. -/
def stm32mp1_pll : PllType → PllChar
  | .PLL_800 => ⟨4, 16, 99⟩
  | .PLL_1600 => ⟨8, 16, 199⟩

inductive PllId where
  | PLL1
  | PLL2
  | PLL3
  | PLL4
deriving DecidableEq

inductive DivId where
  | DIV_P
  | DIV_Q
  | DIV_R
deriving DecidableEq

/-- Model of the `pllncfgr2[]` shift table. -/
def pllncfgr2 : DivId → Nat
  | .DIV_P => RCC_PLLNCFGR2_DIVP_SHIFT
  | .DIV_Q => RCC_PLLNCFGR2_DIVQ_SHIFT
  | .DIV_R => RCC_PLLNCFGR2_DIVR_SHIFT

/-- Model of `struct stm32mp1_clk_pll`. -/
structure ClkPll where
  plltype : PllType
  rckxselr : Nat
  pllxcfgr1 : Nat
  pllxcfgr2 : Nat
  pllxfracr : Nat
  pllxcr : Nat
  pllxcsgr : Nat
  refclk0 : Nat
  refclk1 : Nat
  refclk2 : Nat
  refclk3 : Nat

/-- Lookup of the four-entry `refclk` array of a PLL record. -/
def ClkPll.refclk (pll : ClkPll) : Nat → Nat
  | 0 => pll.refclk0
  | 1 => pll.refclk1
  | 2 => pll.refclk2
  | _ => pll.refclk3

/-- Model of the `stm32mp1_clk_pll[]` table (`pll_ref`). -/
def pll_ref : PllId → ClkPll
  | .PLL1 => ⟨.PLL_1600, RCC_RCK12SELR, RCC_PLL1CFGR1, RCC_PLL1CFGR2,
              RCC_PLL1FRACR, RCC_PLL1CR, RCC_PLL1CSGR,
              OSC_HSI, OSC_HSE, UNKNOWN_OSC_ID, UNKNOWN_OSC_ID⟩
  | .PLL2 => ⟨.PLL_1600, RCC_RCK12SELR, RCC_PLL2CFGR1, RCC_PLL2CFGR2,
              RCC_PLL2FRACR, RCC_PLL2CR, RCC_PLL2CSGR,
              OSC_HSI, OSC_HSE, UNKNOWN_OSC_ID, UNKNOWN_OSC_ID⟩
  | .PLL3 => ⟨.PLL_800, RCC_RCK3SELR, RCC_PLL3CFGR1, RCC_PLL3CFGR2,
              RCC_PLL3FRACR, RCC_PLL3CR, RCC_PLL3CSGR,
              OSC_HSI, OSC_HSE, OSC_CSI, UNKNOWN_OSC_ID⟩
  | .PLL4 => ⟨.PLL_800, RCC_RCK4SELR, RCC_PLL4CFGR1, RCC_PLL4CFGR2,
              RCC_PLL4FRACR, RCC_PLL4CR, RCC_PLL4CSGR,
              OSC_HSI, OSC_HSE, OSC_CSI, OSC_I2S_CKIN⟩

/-! ## Forward PLL math (`stm32mp1_pll_get_fvco`, `stm32mp1_read_pll_freq`) -/

/-- Model of `stm32mp1_pll_get_fref`: rate of the currently selected
reference oscillator of a PLL. -/
def stm32mp1_pll_get_fref (regs : RegFile) (osc : OscF) (pll : ClkPll) : Nat :=
  let selr := read regs pll.rckxselr
  let src := selr &&& RCC_SELR_REFCLK_SRC_MASK
  stm32mp1_clk_get_fixed osc (pll.refclk src)

/-- Model of `stm32mp1_pll_get_fvco`.  For PLL1/PLL2 the hardware value is
half the VCO, which makes `Fout = fvco / (div + 1)` uniform over PLLs. -/
def stm32mp1_pll_get_fvco (regs : RegFile) (osc : OscF) (pll : ClkPll) : Nat :=
  let cfgr1 := read regs pll.pllxcfgr1
  let fracr := read regs pll.pllxfracr
  let divm := (cfgr1 &&& RCC_PLLNCFGR1_DIVM_MASK) >>> RCC_PLLNCFGR1_DIVM_SHIFT
  let divn := cfgr1 &&& RCC_PLLNCFGR1_DIVN_MASK
  let refclk := stm32mp1_pll_get_fref regs osc pll
  if fracr &&& RCC_PLLNFRACR_FRACLE ≠ 0 then
    let fracv := (fracr &&& RCC_PLLNFRACR_FRACV_MASK) >>> RCC_PLLNFRACR_FRACV_SHIFT
    let numerator := (((divn + 1) <<< 13) + fracv) % U64
    let numerator := (refclk * numerator) % U64
    let denominator := ((divm + 1) <<< 13) % U64
    numerator / denominator
  else
    ((refclk * (divn + 1)) % U64) / (divm + 1)

/-- Model of `stm32mp1_read_pll_freq`. -/
def stm32mp1_read_pll_freq (regs : RegFile) (osc : OscF)
    (pll_id : PllId) (div_id : DivId) : Nat :=
  let pll := pll_ref pll_id
  let cfgr2 := read regs pll.pllxcfgr2
  let divy := (cfgr2 >>> pllncfgr2 div_id) &&& RCC_PLLNCFGR2_DIVX_MASK
  stm32mp1_pll_get_fvco regs osc pll / (divy + 1)

/-! ## Refcounted gate state machine

Per-gate state machine of the refcounted path of `__stm32mp1_clk_enable`
and `__stm32mp1_clk_disable` (secure gate, `with_refcnt` true): the state
is the gate's `gate_refcounts[]` slot (a 32-bit unsigned counter) together
with the hardware enable bit; `panic()` is `none`. -/

/-- Refcounted enable: assert the hardware bit on the 0 -> 1 transition,
increment the (wrapping 32-bit) counter, and panic when the counter
reaches `UINT_MAX`. -/
def refcnt_enable (c : Nat) (hw : Bool) : Option (Nat × Bool) :=
  let hw' := if c = 0 then true else hw
  let c' := (c + 1) % U32
  if c' = UINT_MAX then none else some (c', hw')

/-- Refcounted disable: panic on disabling at count 0, decrement, and
deassert the hardware bit on the 1 -> 0 transition. -/
def refcnt_disable (c : Nat) (hw : Bool) : Option (Nat × Bool) :=
  if c = 0 then none
  else
    let c' := c - 1
    some (c', if c' = 0 then false else hw)

/-! ## Concrete states for the C2 scenarios -/

/-- Concrete register state for the S1/S2 scenarios: PLL1 fed from HSE,
`DIVM = 1`, `DIVN = 65`, `DIVP = 1`. -/
def c2regsInt : RegFile := fun o =>
  if o = RCC_RCK12SELR then 1
  else if o = RCC_PLL1CFGR1 then 65601
  else if o = RCC_PLL1CFGR2 then 1
  else 0

/-- Same as `c2regsInt` with `FRACV = 4096` and `FRACLE` set. -/
def c2regsFrac : RegFile := fun o =>
  if o = RCC_PLL1FRACR then 98304 else c2regsInt o

/-- Oscillator rates for the S1/S2 scenarios: HSE = 24 MHz. -/
def c2osc : OscF := fun i => if i = OSC_HSE then 24000000 else 0

/-! ## PLL configuration (`stm32mp1_pll_config` and friends) -/

def RCC_PLLNCFGR1_DIVN_SHIFT : Nat := 0

/-- Model of the `pllcfg[PLLCFG_NB]` array handed to the PLL-configure
routines (fields `M`, `N`, `P`, `Q`, `R`, `O` in source order). -/
structure PllCfg where
  M : Nat
  N : Nat
  P : Nat
  Q : Nat
  R : Nat
  O : Nat
deriving DecidableEq

/-- Model of `stm32mp1_pll_compute_pllxcfgr2`. -/
def stm32mp1_pll_compute_pllxcfgr2 (cfg : PllCfg) : Nat :=
  (((cfg.P <<< RCC_PLLNCFGR2_DIVP_SHIFT) % U32) &&& RCC_PLLNCFGR2_DIVP_MASK) |||
  (((cfg.Q <<< RCC_PLLNCFGR2_DIVQ_SHIFT) % U32) &&& RCC_PLLNCFGR2_DIVQ_MASK) |||
  (((cfg.R <<< RCC_PLLNCFGR2_DIVR_SHIFT) % U32) &&& RCC_PLLNCFGR2_DIVR_MASK)

/-- Model of `stm32mp1_pll_compute_pllxcfgr1`: `none` is the `-EINVAL`
return when the post-M reference rate is outside the PLL type's window. -/
def stm32mp1_pll_compute_pllxcfgr1 (regs : RegFile) (osc : OscF)
    (pll : ClkPll) (cfg : PllCfg) : Option Nat :=
  let src := read regs pll.rckxselr &&& RCC_SELR_REFCLK_SRC_MASK
  let refclk := stm32mp1_clk_get_fixed osc (pll.refclk src) / (cfg.M + 1)
  let char := stm32mp1_pll pll.plltype
  if refclk < char.refclk_min * 1000000 ∨ char.refclk_max * 1000000 < refclk then
    none
  else
    let ifrge : Nat :=
      if pll.plltype = .PLL_800 ∧ 8000000 ≤ refclk then 1 else 0
    some ((((cfg.N <<< RCC_PLLNCFGR1_DIVN_SHIFT) % U32) &&& RCC_PLLNCFGR1_DIVN_MASK) |||
          (((cfg.M <<< RCC_PLLNCFGR1_DIVM_SHIFT) % U32) &&& RCC_PLLNCFGR1_DIVM_MASK) |||
          (((ifrge <<< RCC_PLLNCFGR1_IFRGE_SHIFT) % U32) &&& RCC_PLLNCFGR1_IFRGE_MASK))

/-- Register effect of `stm32mp1_pll_config`: write configuration
register 1, clear the fractional register, load the fractional value and
only then assert FRACLE, and write the output-divider register.  `none`
is the `-EINVAL` return. -/
def stm32mp1_pll_config (regs : RegFile) (osc : OscF) (pll_id : PllId)
    (cfg : PllCfg) (fracv : Nat) : Option RegFile :=
  let pll := pll_ref pll_id
  match stm32mp1_pll_compute_pllxcfgr1 regs osc pll cfg with
  | none => none
  | some v1 =>
    let r1 := write regs pll.pllxcfgr1 v1
    let r2 := write r1 pll.pllxfracr 0
    let r3 := write r2 pll.pllxfracr ((fracv <<< RCC_PLLNFRACR_FRACV_SHIFT) % U32)
    let r4 := write r3 pll.pllxfracr (read r3 pll.pllxfracr ||| RCC_PLLNFRACR_FRACLE)
    some (write r4 pll.pllxcfgr2 (stm32mp1_pll_compute_pllxcfgr2 cfg))

/-- Model of `stm32mp1_check_pll_conf` (the `matches` operation); the
fractional value read from the device tree is passed as `fracv`. -/
def stm32mp1_check_pll_conf (regs : RegFile) (osc : OscF) (pll_id : PllId)
    (clksrc : Nat) (cfg : PllCfg) (fracv : Nat) : Bool :=
  let pll := pll_ref pll_id
  if read regs pll.pllxcr ≠ RCC_PLLNCR_PLLON then false
  else if read regs (clksrc >>> 4) &&& RCC_SELR_SRC_MASK ≠
      clksrc &&& RCC_SELR_SRC_MASK then false
  else
    let src := read regs pll.rckxselr &&& RCC_SELR_REFCLK_SRC_MASK
    let refclk := stm32mp1_clk_get_fixed osc (pll.refclk src) / (cfg.M + 1)
    let char := stm32mp1_pll pll.plltype
    if refclk < char.refclk_min * 1000000 ∨ char.refclk_max * 1000000 < refclk then
      false
    else
      let ifrge : Nat :=
        if pll.plltype = .PLL_800 ∧ 8000000 ≤ refclk then 1 else 0
      let v1 := (((cfg.N <<< RCC_PLLNCFGR1_DIVN_SHIFT) % U32) &&&
            RCC_PLLNCFGR1_DIVN_MASK) |||
          (((cfg.M <<< RCC_PLLNCFGR1_DIVM_SHIFT) % U32) &&&
            RCC_PLLNCFGR1_DIVM_MASK) |||
          (((ifrge <<< RCC_PLLNCFGR1_IFRGE_SHIFT) % U32) &&&
            RCC_PLLNCFGR1_IFRGE_MASK)
      if read regs pll.pllxcfgr1 ≠ v1 then false
      else
        let vf := ((fracv <<< RCC_PLLNFRACR_FRACV_SHIFT) % U32) |||
          RCC_PLLNFRACR_FRACLE
        if read regs pll.pllxfracr ≠ vf then false
        else
          let v2 := stm32mp1_pll_compute_pllxcfgr2 cfg
          read regs pll.pllxcfgr2 = v2

/-- Model of `stm32mp1_is_pll_config_on_the_fly`: `none` is the `-EINVAL`
early return; otherwise the decision is `-1` (stop-reconfigure), `0`
(on-the-fly) or `1` (same parameters). -/
def stm32mp1_is_pll_config_on_the_fly (regs : RegFile) (osc : OscF)
    (pll_id : PllId) (cfg : PllCfg) (fracv : Nat) : Option Int :=
  let pll := pll_ref pll_id
  match stm32mp1_pll_compute_pllxcfgr1 regs osc pll cfg with
  | none => none
  | some v1 =>
    if read regs pll.pllxcfgr1 ≠ v1 then some (-1)
    else
      let fracr := ((fracv <<< RCC_PLLNFRACR_FRACV_SHIFT) % U32) |||
        RCC_PLLNFRACR_FRACLE
      let v2 := stm32mp1_pll_compute_pllxcfgr2 cfg
      if read regs pll.pllxfracr = fracr ∧ read regs pll.pllxcfgr2 = v2 then
        some 1
      else
        some 0

/-! ## Parent identifiers (`enum stm32mp1_parent_id`)

Oscillator parent ids reuse `enum stm32mp_osc_id` (0..5); the remaining
values follow the enumeration in the driver source. -/

def P_HSI_KER : Nat := 6
def P_HSE_KER : Nat := 7
def P_HSE_KER_DIV2 : Nat := 8
def P_CSI_KER : Nat := 9
def P_PLL1_P : Nat := 10
def P_PLL1_Q : Nat := 11
def P_PLL1_R : Nat := 12
def P_PLL2_P : Nat := 13
def P_PLL2_Q : Nat := 14
def P_PLL2_R : Nat := 15
def P_PLL3_P : Nat := 16
def P_PLL3_Q : Nat := 17
def P_PLL3_R : Nat := 18
def P_PLL4_P : Nat := 19
def P_PLL4_Q : Nat := 20
def P_PLL4_R : Nat := 21
def P_ACLK : Nat := 22
def P_PCLK1 : Nat := 23
def P_PCLK2 : Nat := 24
def P_PCLK3 : Nat := 25
def P_PCLK4 : Nat := 26
def P_PCLK5 : Nat := 27
def P_HCLK6 : Nat := 28
def P_HCLK2 : Nat := 29
def P_CK_PER : Nat := 30
def P_CK_MPU : Nat := 31
def P_CK_MCU : Nat := 32
def P_USB_PHY_48 : Nat := 33
def PARENT_NB : Nat := 34
def UNKNOWN_ID : Nat := 0xFF

/-! ## Selector identifiers (`enum stm32mp1_parent_sel`) -/

def SEL_I2C12 : Nat := 0
def SEL_I2C35 : Nat := 1
def SEL_STGEN : Nat := 2
def SEL_I2C46 : Nat := 3
def SEL_SPI6 : Nat := 4
def SEL_UART1 : Nat := 5
def SEL_RNG1 : Nat := 6
def SEL_UART6 : Nat := 7
def SEL_UART24 : Nat := 8
def SEL_UART35 : Nat := 9
def SEL_UART78 : Nat := 10
def SEL_SDMMC12 : Nat := 11
def SEL_SDMMC3 : Nat := 12
def SEL_QSPI : Nat := 13
def SEL_FMC : Nat := 14
def SEL_AXIS : Nat := 15
def SEL_MCUS : Nat := 16
def SEL_USBPHY : Nat := 17
def SEL_USBO : Nat := 18
def SEL_RTC : Nat := 19
def SEL_MPU : Nat := 20
def SEL_PER : Nat := 21
def PARENT_SEL_NB : Nat := 22
def UNKNOWN_SEL : Nat := 0xFF

/-! ## Clock identifiers (device-tree bindings)

Modelled from the spec: the numeric clock identifiers come from the
`dt-bindings` clock header, which is not among the provided sources.  The
driver's static assert pins the oscillator rail ids to 0..5 and requires
`PLL1_P` .. `PLL3_R` to be contiguous; beyond that only mutual
distinctness of the identifiers (each binding id names one clock) is
relied upon. -/

def CK_HSE : Nat := 0
def CK_CSI : Nat := 1
def CK_LSI : Nat := 2
def CK_LSE : Nat := 3
def CK_HSI : Nat := 4
def CK_HSE_DIV2 : Nat := 5
def PLL1_P : Nat := 50
def PLL1_Q : Nat := 51
def PLL1_R : Nat := 52
def PLL2_P : Nat := 53
def PLL2_Q : Nat := 54
def PLL2_R : Nat := 55
def PLL3_P : Nat := 56
def PLL3_Q : Nat := 57
def PLL3_R : Nat := 58
def PLL4_P : Nat := 59
def PLL4_Q : Nat := 60
def PLL4_R : Nat := 61
def CK_PER : Nat := 170
def CK_MPU : Nat := 171
def CK_AXI : Nat := 172
def CK_MCU : Nat := 173
def RTC : Nat := 174

def SYSCFG : Nat := 37
def RTCAPB : Nat := 40
def TZC1 : Nat := 41
def TZC2 : Nat := 42
def TZPC : Nat := 43
def IWDG1 : Nat := 44
def BSEC : Nat := 45
def TIM12_K : Nat := 76
def TIM15_K : Nat := 79
def GPIOA : Nat := 81
def GPIOB : Nat := 82
def GPIOC : Nat := 83
def GPIOD : Nat := 84
def GPIOE : Nat := 85
def GPIOF : Nat := 86
def DMA1 : Nat := 87
def DMA2 : Nat := 88
def GPIOG : Nat := 89
def LTDC_PX : Nat := 90
def GPIOH : Nat := 91
def GPIOI : Nat := 92
def GPIOJ : Nat := 93
def GPIOK : Nat := 94
def GPIOZ : Nat := 95
def CRYP1 : Nat := 96
def HASH1 : Nat := 97
def IWDG2 : Nat := 98
def BKPSRAM : Nat := 99
def MDMA : Nat := 100
def GPU : Nat := 101
def ETHMAC : Nat := 102
def USBH : Nat := 103
def SDMMC1_K : Nat := 116
def SDMMC2_K : Nat := 117
def SDMMC3_K : Nat := 118
def RNG1_K : Nat := 119
def I2C4_K : Nat := 121
def I2C6_K : Nat := 122
def USBPHY_K : Nat := 127
def USART1_K : Nat := 128
def USBO_K : Nat := 129
def SPI6_K : Nat := 135
def STGEN_K : Nat := 136
def CK_DBG : Nat := 180
def DDRC1 : Nat := 220
def DDRC1LP : Nat := 221
def DDRC2 : Nat := 222
def DDRC2LP : Nat := 223
def DDRPHYC : Nat := 224
def DDRPHYCLP : Nat := 225
def DDRCAPB : Nat := 226
def DDRCAPBLP : Nat := 227
def AXIDCG : Nat := 228
def DDRPHYCAPB : Nat := 229
def DDRPHYCAPBLP : Nat := 230
def DDRPERFM : Nat := 231

/-! ## Static identity table (`parent_id_clock_id`) -/

/-- Model of the `parent_id_clock_id[]` array: the clock id directly
designated by a parent id (designated initializers; the entries the
source leaves unset — `_HCLK6`, `_HCLK2` — are zero). -/
def parent_id_clock_id : Nat → Nat
  | 0 => CK_HSI
  | 1 => CK_HSE
  | 2 => CK_CSI
  | 3 => CK_LSI
  | 4 => CK_LSE
  | 5 => UNKNOWN_ID
  | 6 => CK_HSI
  | 7 => CK_HSE
  | 8 => CK_HSE_DIV2
  | 9 => CK_CSI
  | 10 => PLL1_P
  | 11 => PLL1_Q
  | 12 => PLL1_R
  | 13 => PLL2_P
  | 14 => PLL2_Q
  | 15 => PLL2_R
  | 16 => PLL3_P
  | 17 => PLL3_Q
  | 18 => PLL3_R
  | 19 => PLL4_P
  | 20 => PLL4_Q
  | 21 => PLL4_R
  | 22 => CK_AXI
  | 23 => CK_AXI
  | 24 => CK_AXI
  | 25 => CK_AXI
  | 26 => CK_AXI
  | 27 => CK_AXI
  | 28 => 0
  | 29 => 0
  | 30 => CK_PER
  | 31 => CK_MPU
  | 32 => CK_MCU
  | _ => UNKNOWN_ID

/-- Model of `clock_id2parent_id`: first parent id whose identity-table
entry equals the clock id, else `_UNKNOWN_ID`. -/
def clock_id2parent_id (id : Nat) : Nat :=
  ((List.range PARENT_NB).find? (fun n => parent_id_clock_id n == id)).getD
    UNKNOWN_ID

/-! ## Gate and selector tables -/

/-- Model of `struct stm32mp1_clk_gate`. -/
structure ClkGate where
  offset : Nat
  bit : Nat
  index : Nat
  set_clr : Bool
  secure : Bool
  sel : Nat
  fixed : Nat
deriving DecidableEq

/-- Model of `struct stm32mp1_clk_sel`. -/
structure ClkSel where
  offset : Nat
  src : Nat
  msk : Nat
  parents : List Nat
deriving DecidableEq

/-- Gate-table entry with a selectable source and regular register
access (`_CLK_SELEC`). -/
def mkSelec (sec : Bool) (off bit idx s : Nat) : ClkGate :=
  ⟨off, bit, idx, false, sec, s, UNKNOWN_ID⟩

/-- Gate-table entry with a fixed source and regular register access
(`_CLK_FIXED`). -/
def mkFixed (sec : Bool) (off bit idx f : Nat) : ClkGate :=
  ⟨off, bit, idx, false, sec, UNKNOWN_SEL, f⟩

/-- Gate-table entry with a selectable source and set/clear register
access (`_CLK_SC_SELEC`). -/
def mkScSelec (sec : Bool) (off bit idx s : Nat) : ClkGate :=
  ⟨off, bit, idx, true, sec, s, UNKNOWN_ID⟩

/-- Gate-table entry with a fixed source and set/clear register access
(`_CLK_SC_FIXED`). -/
def mkScFixed (sec : Bool) (off bit idx f : Nat) : ClkGate :=
  ⟨off, bit, idx, true, sec, UNKNOWN_SEL, f⟩

/-- Model of the `stm32mp1_clk_gate[]` table in its `IMAGE_BL32`
(secure-runtime) configuration. -/
def stm32mp1_clk_gate : List ClkGate := [
  mkFixed true RCC_DDRITFCR 0 DDRC1 P_ACLK,
  mkFixed true RCC_DDRITFCR 1 DDRC1LP P_ACLK,
  mkFixed true RCC_DDRITFCR 2 DDRC2 P_ACLK,
  mkFixed true RCC_DDRITFCR 3 DDRC2LP P_ACLK,
  mkFixed true RCC_DDRITFCR 4 DDRPHYC P_PLL2_R,
  mkFixed true RCC_DDRITFCR 5 DDRPHYCLP P_PLL2_R,
  mkFixed true RCC_DDRITFCR 6 DDRCAPB P_PCLK4,
  mkFixed true RCC_DDRITFCR 7 DDRCAPBLP P_PCLK4,
  mkFixed true RCC_DDRITFCR 8 AXIDCG P_ACLK,
  mkFixed true RCC_DDRITFCR 9 DDRPHYCAPB P_PCLK4,
  mkFixed true RCC_DDRITFCR 10 DDRPHYCAPBLP P_PCLK4,
  mkScFixed false RCC_MP_APB1ENSETR 6 TIM12_K P_PCLK1,
  mkScFixed false RCC_MP_APB2ENSETR 2 TIM15_K P_PCLK2,
  mkScFixed false RCC_MP_APB3ENSETR 11 SYSCFG UNKNOWN_ID,
  mkScSelec false RCC_MP_APB4ENSETR 0 LTDC_PX UNKNOWN_SEL,
  mkScSelec false RCC_MP_APB4ENSETR 8 DDRPERFM UNKNOWN_SEL,
  mkScSelec false RCC_MP_APB4ENSETR 15 IWDG2 UNKNOWN_SEL,
  mkScSelec false RCC_MP_APB4ENSETR 16 USBPHY_K SEL_USBPHY,
  mkScSelec true RCC_MP_APB5ENSETR 0 SPI6_K SEL_SPI6,
  mkScSelec true RCC_MP_APB5ENSETR 2 I2C4_K SEL_I2C46,
  mkScSelec true RCC_MP_APB5ENSETR 3 I2C6_K SEL_I2C46,
  mkScSelec true RCC_MP_APB5ENSETR 4 USART1_K SEL_UART1,
  mkScFixed true RCC_MP_APB5ENSETR 8 RTCAPB P_PCLK5,
  mkScFixed true RCC_MP_APB5ENSETR 11 TZC1 P_PCLK5,
  mkScFixed true RCC_MP_APB5ENSETR 12 TZC2 P_PCLK5,
  mkScFixed true RCC_MP_APB5ENSETR 13 TZPC P_PCLK5,
  mkScFixed true RCC_MP_APB5ENSETR 15 IWDG1 P_PCLK5,
  mkScFixed true RCC_MP_APB5ENSETR 16 BSEC P_PCLK5,
  mkScSelec true RCC_MP_APB5ENSETR 20 STGEN_K SEL_STGEN,
  mkSelec true RCC_BDCR 20 RTC SEL_RTC,
  mkScSelec false RCC_MP_AHB2ENSETR 0 DMA1 UNKNOWN_SEL,
  mkScSelec false RCC_MP_AHB2ENSETR 1 DMA2 UNKNOWN_SEL,
  mkScSelec false RCC_MP_AHB2ENSETR 8 USBO_K SEL_USBO,
  mkScSelec false RCC_MP_AHB2ENSETR 16 SDMMC3_K SEL_SDMMC3,
  mkScSelec false RCC_MP_AHB4ENSETR 0 GPIOA UNKNOWN_SEL,
  mkScSelec false RCC_MP_AHB4ENSETR 1 GPIOB UNKNOWN_SEL,
  mkScSelec false RCC_MP_AHB4ENSETR 2 GPIOC UNKNOWN_SEL,
  mkScSelec false RCC_MP_AHB4ENSETR 3 GPIOD UNKNOWN_SEL,
  mkScSelec false RCC_MP_AHB4ENSETR 4 GPIOE UNKNOWN_SEL,
  mkScSelec false RCC_MP_AHB4ENSETR 5 GPIOF UNKNOWN_SEL,
  mkScSelec false RCC_MP_AHB4ENSETR 6 GPIOG UNKNOWN_SEL,
  mkScSelec false RCC_MP_AHB4ENSETR 7 GPIOH UNKNOWN_SEL,
  mkScSelec false RCC_MP_AHB4ENSETR 8 GPIOI UNKNOWN_SEL,
  mkScSelec false RCC_MP_AHB4ENSETR 9 GPIOJ UNKNOWN_SEL,
  mkScSelec false RCC_MP_AHB4ENSETR 10 GPIOK UNKNOWN_SEL,
  mkScFixed true RCC_MP_AHB5ENSETR 0 GPIOZ P_PCLK5,
  mkScFixed true RCC_MP_AHB5ENSETR 4 CRYP1 P_PCLK5,
  mkScFixed true RCC_MP_AHB5ENSETR 5 HASH1 P_PCLK5,
  mkScSelec true RCC_MP_AHB5ENSETR 6 RNG1_K SEL_RNG1,
  mkScFixed true RCC_MP_AHB5ENSETR 8 BKPSRAM P_PCLK5,
  mkScFixed true RCC_MP_TZAHB6ENSETR 0 MDMA P_ACLK,
  mkScSelec false RCC_MP_AHB6ENSETR 5 GPU UNKNOWN_SEL,
  mkScFixed false RCC_MP_AHB6ENSETR 10 ETHMAC P_ACLK,
  mkScSelec false RCC_MP_AHB6ENSETR 16 SDMMC1_K SEL_SDMMC12,
  mkScSelec false RCC_MP_AHB6ENSETR 17 SDMMC2_K SEL_SDMMC12,
  mkScSelec false RCC_MP_AHB6ENSETR 24 USBH UNKNOWN_SEL,
  mkSelec false RCC_DBGCFGR 8 CK_DBG UNKNOWN_SEL]

def NB_GATES : Nat := stm32mp1_clk_gate.length

/-- Model of `gate_ref`. -/
def gate_ref (i : Nat) : ClkGate :=
  stm32mp1_clk_gate.getD i ⟨0, 0, 0, false, false, 0, 0⟩

/-- Model of `gate_is_non_secure`. -/
def gate_is_non_secure (gate : ClkGate) : Bool := !gate.secure

/-- Parent candidate tuples (the `*_parents[]` arrays). -/
def i2c12_parents : List Nat := [P_PCLK1, P_PLL4_R, P_HSI_KER, P_CSI_KER]
def i2c35_parents : List Nat := [P_PCLK1, P_PLL4_R, P_HSI_KER, P_CSI_KER]
def stgen_parents : List Nat := [P_HSI_KER, P_HSE_KER]
def i2c46_parents : List Nat := [P_PCLK5, P_PLL3_Q, P_HSI_KER, P_CSI_KER]
def spi6_parents : List Nat :=
  [P_PCLK5, P_PLL4_Q, P_HSI_KER, P_CSI_KER, P_HSE_KER, P_PLL3_Q]
def usart1_parents : List Nat :=
  [P_PCLK5, P_PLL3_Q, P_HSI_KER, P_CSI_KER, P_PLL4_Q, P_HSE_KER]
def rng1_parents : List Nat := [OSC_CSI, P_PLL4_R, OSC_LSE, OSC_LSI]
def uart6_parents : List Nat :=
  [P_PCLK2, P_PLL4_Q, P_HSI_KER, P_CSI_KER, P_HSE_KER]
def uart234578_parents : List Nat :=
  [P_PCLK1, P_PLL4_Q, P_HSI_KER, P_CSI_KER, P_HSE_KER]
def sdmmc12_parents : List Nat := [P_HCLK6, P_PLL3_R, P_PLL4_P, P_HSI_KER]
def sdmmc3_parents : List Nat := [P_HCLK2, P_PLL3_R, P_PLL4_P, P_HSI_KER]
def qspi_parents : List Nat := [P_ACLK, P_PLL3_R, P_PLL4_P, P_CK_PER]
def fmc_parents : List Nat := [P_ACLK, P_PLL3_R, P_PLL4_P, P_CK_PER]
def axiss_parents : List Nat := [OSC_HSI, OSC_HSE, P_PLL2_P]
def mcuss_parents : List Nat := [OSC_HSI, OSC_HSE, OSC_CSI, P_PLL3_P]
def usbphy_parents : List Nat := [P_HSE_KER, P_PLL4_R, P_HSE_KER_DIV2]
def usbo_parents : List Nat := [P_PLL4_R, P_USB_PHY_48]
def rtc_parents : List Nat := [UNKNOWN_ID, OSC_LSE, OSC_LSI, OSC_HSE]
def mpu_parents : List Nat := [OSC_HSI, OSC_HSE, P_PLL1_P, P_PLL1_P]
def per_parents : List Nat := [OSC_HSI, OSC_HSE, OSC_CSI]

/-- Model of the `stm32mp1_clk_sel[]` table.  The field shifts and masks
are the selector-source fields of the respective `*CKSELR` registers
(the bit widths match the `backup_mux*_cfg` tables of the suspend
path). -/
def stm32mp1_clk_sel : Nat → ClkSel
  | 0 => ⟨RCC_I2C12CKSELR, 0, 7, i2c12_parents⟩
  | 1 => ⟨RCC_I2C35CKSELR, 0, 7, i2c35_parents⟩
  | 2 => ⟨RCC_STGENCKSELR, 0, 3, stgen_parents⟩
  | 3 => ⟨RCC_I2C46CKSELR, 0, 7, i2c46_parents⟩
  | 4 => ⟨RCC_SPI6CKSELR, 0, 7, spi6_parents⟩
  | 5 => ⟨RCC_UART1CKSELR, 0, 7, usart1_parents⟩
  | 6 => ⟨RCC_RNG1CKSELR, 0, 3, rng1_parents⟩
  | 7 => ⟨RCC_UART6CKSELR, 0, 7, uart6_parents⟩
  | 8 => ⟨RCC_UART24CKSELR, 0, 7, uart234578_parents⟩
  | 9 => ⟨RCC_UART35CKSELR, 0, 7, uart234578_parents⟩
  | 10 => ⟨RCC_UART78CKSELR, 0, 7, uart234578_parents⟩
  | 11 => ⟨RCC_SDMMC12CKSELR, 0, 7, sdmmc12_parents⟩
  | 12 => ⟨RCC_SDMMC3CKSELR, 0, 7, sdmmc3_parents⟩
  | 13 => ⟨RCC_QSPICKSELR, 0, 3, qspi_parents⟩
  | 14 => ⟨RCC_FMCCKSELR, 0, 3, fmc_parents⟩
  | 15 => ⟨RCC_ASSCKSELR, 0, 3, axiss_parents⟩
  | 16 => ⟨RCC_MSSCKSELR, 0, 3, mcuss_parents⟩
  | 17 => ⟨RCC_USBCKSELR, 0, 3, usbphy_parents⟩
  | 18 => ⟨RCC_USBCKSELR, 4, 1, usbo_parents⟩
  | 19 => ⟨RCC_BDCR, 16, 3, rtc_parents⟩
  | 20 => ⟨RCC_MPCKSELR, 0, 3, mpu_parents⟩
  | 21 => ⟨RCC_CPERCKSELR, 0, 3, per_parents⟩
  | _ => ⟨0, 0, 0, []⟩

/-- Model of `clk_sel_ref`. -/
def clk_sel_ref (s : Nat) : ClkSel := stm32mp1_clk_sel s

/-! ## Parent resolution and the rate engine -/

/-- Model of `stm32mp1_clk_get_gated_id`: index of the unique gate with
the given logical clock id, `none` for the `-EINVAL` return. -/
def stm32mp1_clk_get_gated_id (id : Nat) : Option Nat :=
  (List.range NB_GATES).find? (fun i => (gate_ref i).index == id)

/-- Model of `stm32mp1_clk_get_parent`: `none` is `panic()`,
`some (.error ())` the `-EINVAL` return, `some (.ok p)` a parent id. -/
def stm32mp1_clk_get_parent (regs : RegFile) (id : Nat) :
    Option (Except Unit Nat) :=
  let i := clock_id2parent_id id
  if i ≠ UNKNOWN_ID then some (.ok i)
  else
    match stm32mp1_clk_get_gated_id id with
    | none => none
    | some g =>
      let gate := gate_ref g
      if gate.fixed < PARENT_NB then some (.ok gate.fixed)
      else if gate.sel = UNKNOWN_SEL then some (.error ())
      else if PARENT_SEL_NB ≤ gate.sel then none
      else
        let sel := clk_sel_ref gate.sel
        let p_sel := (read regs sel.offset &&& (sel.msk <<< sel.src)) >>> sel.src
        match sel.parents.get? p_sel with
        | some p => some (.ok p)
        | none => some (.error ())

/-- Model of the `stm32mp1_mcu_div[]` right-shift table. -/
def stm32mp1_mcu_div (i : Nat) : Nat :=
  [0, 1, 2, 3, 4, 6, 7, 8, 9, 9, 9, 9, 9, 9, 9, 9].getD i 9

/-- Model of the `stm32mp1_mpu_apbx_div[]` right-shift table (shared by
the MPU divider and the APB dividers). -/
def stm32mp1_mpu_apbx_div (i : Nat) : Nat :=
  [0, 1, 2, 3, 4, 4, 4, 4].getD i 4

/-- Model of the `stm32mp1_axi_div[]` divisor table. -/
def stm32mp1_axi_div (i : Nat) : Nat :=
  [1, 2, 3, 4, 4, 4, 4, 4].getD i 4

/-- Model of `get_clock_rate`: effective rate of a parent id from the
live register state (unknown parents and unprogrammed selector values
fall through to rate 0). -/
def get_clock_rate (regs : RegFile) (osc : OscF) (p : Nat) : Nat :=
  if p = P_CK_MPU then
    let sel := read regs RCC_MPCKSELR &&& RCC_SELR_SRC_MASK
    if sel = RCC_MPCKSELR_HSI then stm32mp1_clk_get_fixed osc OSC_HSI
    else if sel = RCC_MPCKSELR_HSE then stm32mp1_clk_get_fixed osc OSC_HSE
    else if sel = RCC_MPCKSELR_PLL then
      stm32mp1_read_pll_freq regs osc .PLL1 .DIV_P
    else if sel = RCC_MPCKSELR_PLL_MPUDIV then
      let c := stm32mp1_read_pll_freq regs osc .PLL1 .DIV_P
      c >>> stm32mp1_mpu_apbx_div (read regs RCC_MPCKDIVR &&& RCC_MPUDIV_MASK)
    else 0
  else if p = P_ACLK ∨ p = P_HCLK2 ∨ p = P_HCLK6 ∨ p = P_PCLK4 ∨ p = P_PCLK5 then
    let sel := read regs RCC_ASSCKSELR &&& RCC_SELR_SRC_MASK
    let c :=
      if sel = RCC_ASSCKSELR_HSI then stm32mp1_clk_get_fixed osc OSC_HSI
      else if sel = RCC_ASSCKSELR_HSE then stm32mp1_clk_get_fixed osc OSC_HSE
      else if sel = RCC_ASSCKSELR_PLL then
        stm32mp1_read_pll_freq regs osc .PLL2 .DIV_P
      else 0
    let c := c / stm32mp1_axi_div (read regs RCC_AXIDIVR &&& RCC_AXIDIV_MASK)
    if p = P_PCLK4 then
      c >>> stm32mp1_mpu_apbx_div (read regs RCC_APB4DIVR &&& RCC_APBXDIV_MASK)
    else if p = P_PCLK5 then
      c >>> stm32mp1_mpu_apbx_div (read regs RCC_APB5DIVR &&& RCC_APBXDIV_MASK)
    else c
  else if p = P_CK_MCU ∨ p = P_PCLK1 ∨ p = P_PCLK2 ∨ p = P_PCLK3 then
    let sel := read regs RCC_MSSCKSELR &&& RCC_SELR_SRC_MASK
    let c :=
      if sel = RCC_MSSCKSELR_HSI then stm32mp1_clk_get_fixed osc OSC_HSI
      else if sel = RCC_MSSCKSELR_HSE then stm32mp1_clk_get_fixed osc OSC_HSE
      else if sel = RCC_MSSCKSELR_CSI then stm32mp1_clk_get_fixed osc OSC_CSI
      else if sel = RCC_MSSCKSELR_PLL then
        stm32mp1_read_pll_freq regs osc .PLL3 .DIV_P
      else 0
    let c := c >>> stm32mp1_mcu_div (read regs RCC_MCUDIVR &&& RCC_MCUDIV_MASK)
    if p = P_PCLK1 then
      c >>> stm32mp1_mpu_apbx_div (read regs RCC_APB1DIVR &&& RCC_APBXDIV_MASK)
    else if p = P_PCLK2 then
      c >>> stm32mp1_mpu_apbx_div (read regs RCC_APB2DIVR &&& RCC_APBXDIV_MASK)
    else if p = P_PCLK3 then
      c >>> stm32mp1_mpu_apbx_div (read regs RCC_APB3DIVR &&& RCC_APBXDIV_MASK)
    else c
  else if p = P_CK_PER then
    let sel := read regs RCC_CPERCKSELR &&& RCC_SELR_SRC_MASK
    if sel = RCC_CPERCKSELR_HSI then stm32mp1_clk_get_fixed osc OSC_HSI
    else if sel = RCC_CPERCKSELR_HSE then stm32mp1_clk_get_fixed osc OSC_HSE
    else if sel = RCC_CPERCKSELR_CSI then stm32mp1_clk_get_fixed osc OSC_CSI
    else 0
  else if p = OSC_HSI ∨ p = P_HSI_KER then stm32mp1_clk_get_fixed osc OSC_HSI
  else if p = OSC_CSI ∨ p = P_CSI_KER then stm32mp1_clk_get_fixed osc OSC_CSI
  else if p = OSC_HSE ∨ p = P_HSE_KER then stm32mp1_clk_get_fixed osc OSC_HSE
  else if p = P_HSE_KER_DIV2 then stm32mp1_clk_get_fixed osc OSC_HSE >>> 1
  else if p = OSC_LSI then stm32mp1_clk_get_fixed osc OSC_LSI
  else if p = OSC_LSE then stm32mp1_clk_get_fixed osc OSC_LSE
  else if p = P_PLL1_P then stm32mp1_read_pll_freq regs osc .PLL1 .DIV_P
  else if p = P_PLL1_Q then stm32mp1_read_pll_freq regs osc .PLL1 .DIV_Q
  else if p = P_PLL1_R then stm32mp1_read_pll_freq regs osc .PLL1 .DIV_R
  else if p = P_PLL2_P then stm32mp1_read_pll_freq regs osc .PLL2 .DIV_P
  else if p = P_PLL2_Q then stm32mp1_read_pll_freq regs osc .PLL2 .DIV_Q
  else if p = P_PLL2_R then stm32mp1_read_pll_freq regs osc .PLL2 .DIV_R
  else if p = P_PLL3_P then stm32mp1_read_pll_freq regs osc .PLL3 .DIV_P
  else if p = P_PLL3_Q then stm32mp1_read_pll_freq regs osc .PLL3 .DIV_Q
  else if p = P_PLL3_R then stm32mp1_read_pll_freq regs osc .PLL3 .DIV_R
  else if p = P_PLL4_P then stm32mp1_read_pll_freq regs osc .PLL4 .DIV_P
  else if p = P_PLL4_Q then stm32mp1_read_pll_freq regs osc .PLL4 .DIV_Q
  else if p = P_PLL4_R then stm32mp1_read_pll_freq regs osc .PLL4 .DIV_R
  else if p = P_USB_PHY_48 then 48000000
  else 0

/-- Model of `stm32mp_clk_get_rate`: `none` is the `panic()` inside the
parent lookup; an error from the parent lookup yields rate 0. -/
def stm32mp_clk_get_rate (regs : RegFile) (osc : OscF) (id : Nat) :
    Option Nat :=
  match stm32mp1_clk_get_parent regs id with
  | none => none
  | some (.error _) => some 0
  | some (.ok p) => some (get_clock_rate regs osc p)

/-! ## Gate engine (always-on set, enable/disable/is-enabled) -/

/-- Model of `clock_is_always_on`. -/
def clock_is_always_on (id : Nat) : Bool :=
  decide (id ≤ CK_HSE_DIV2) || (decide (PLL1_P ≤ id) && decide (id ≤ PLL3_R)) ||
  decide (id = CK_AXI) || decide (id = CK_MPU) || decide (id = CK_MCU) ||
  decide (id = RTC)

/-- Observable gate state: per-gate-index refcount slot and hardware
enable bit (the MMIO effect of `__clk_enable` / `__clk_disable` is
abstracted to the gate's enable bit). -/
structure GatesState where
  cnt : Nat → Nat
  hw : Nat → Bool

def setHw (st : GatesState) (i : Nat) (b : Bool) : GatesState :=
  ⟨st.cnt, fun j => if j = i then b else st.hw j⟩

def setCnt (st : GatesState) (i c : Nat) : GatesState :=
  ⟨fun j => if j = i then c else st.cnt j, st.hw⟩

/-- Model of `__stm32mp1_clk_enable` in the `IMAGE_BL32` image: always-on
ids return immediately; unknown ids panic; without refcounting the bit is
written directly; non-secure gates are enabled without accounting; secure
gates go through the refcounted state machine. -/
def clk_enable_m (st : GatesState) (id : Nat) (with_refcnt : Bool) :
    Option GatesState :=
  if clock_is_always_on id then some st
  else
    match stm32mp1_clk_get_gated_id id with
    | none => none
    | some i =>
      if !with_refcnt then some (setHw st i true)
      else if gate_is_non_secure (gate_ref i) then some (setHw st i true)
      else
        match refcnt_enable (st.cnt i) (st.hw i) with
        | none => none
        | some (c, b) => some (setCnt (setHw st i b) i c)

/-- Model of `__stm32mp1_clk_disable` in the `IMAGE_BL32` image. -/
def clk_disable_m (st : GatesState) (id : Nat) (with_refcnt : Bool) :
    Option GatesState :=
  if clock_is_always_on id then some st
  else
    match stm32mp1_clk_get_gated_id id with
    | none => none
    | some i =>
      if !with_refcnt then some (setHw st i false)
      else if gate_is_non_secure (gate_ref i) then some st
      else
        match refcnt_disable (st.cnt i) (st.hw i) with
        | none => none
        | some (c, b) => some (setCnt (setHw st i b) i c)

/-- Model of `stm32mp_clk_is_enabled`. -/
def stm32mp_clk_is_enabled (st : GatesState) (id : Nat) : Option Bool :=
  if clock_is_always_on id then some true
  else
    match stm32mp1_clk_get_gated_id id with
    | none => none
    | some i => some (st.hw i)

/-! ## DVFS engine (`stm32mp1_round_opp_khz`, `stm32mp1_set_opp_khz`) -/

/-- Modelled from the spec: the OPP-table validity sentinel value
`PLL1_SETTINGS_VALID_ID` is defined in a platform header that is not
among the provided sources; only its being a fixed nonzero magic is
relied upon. -/
def PLL1_SETTINGS_VALID_ID : Nat := 0x504C4C31

/-- Model of the OPP side of `struct stm32mp1_pll_settings`: the validity
sentinel and the `freq[PLAT_MAX_OPP_NB]` array of OPP frequencies in
kHz. -/
structure Pll1Settings where
  valid_id : Nat
  freq : List Nat

/-- Model of `clk_pll1_settings_are_valid`. -/
def clk_pll1_settings_are_valid (s : Pll1Settings) : Bool :=
  s.valid_id == PLL1_SETTINGS_VALID_ID

/-- Model of `stm32mp1_round_opp_khz`, returning the rounded value stored
through `*freq_khz` (the function's own return value is always 0). -/
def stm32mp1_round_opp_khz (s : Pll1Settings) (current_opp_khz freq_khz : Nat) :
    Nat :=
  if !clk_pll1_settings_are_valid s then current_opp_khz
  else
    s.freq.foldl (fun acc f => if f ≤ freq_khz ∧ acc < f then f else acc) 0

def EPERM : Int := 1
def EIO_code : Int := 5
def ENXIO : Int := 6
def EACCES : Int := 13
def EINVAL : Int := 22

/-- Model of `stm32mp1_set_opp_khz`.  The outcome of
`stm32mp1_pll1_config_from_opp_khz` is abstracted by the `cfgOk` oracle
(its body polls hardware ready bits, so its success is an environment
fact); the returned pair is (return value, new `current_opp_khz`), and
`none` is the `panic()` taken when restoring the previous operating
point also fails. -/
def stm32mp1_set_opp_khz (cfgOk : Nat → Bool) (s : Pll1Settings)
    (regs : RegFile) (current_opp_khz freq_khz : Nat) : Option (Int × Nat) :=
  if freq_khz = current_opp_khz then some (0, current_opp_khz)
  else if !clk_pll1_settings_are_valid s then some (-EACCES, current_opp_khz)
  else
    let mpu_src := read regs RCC_MPCKSELR &&& RCC_SELR_SRC_MASK
    if mpu_src ≠ RCC_MPCKSELR_PLL ∧ mpu_src ≠ RCC_MPCKSELR_PLL_MPUDIV then
      some (-EPERM, current_opp_khz)
    else if cfgOk freq_khz then some (0, freq_khz)
    else if cfgOk current_opp_khz then some (-EIO_code, current_opp_khz)
    else none

/-! ## Reverse PLL1 search (`clk_compute_pll1_settings`) -/

/-- Conversion of a C `int` value to `uint32_t` (two's-complement wrap). -/
def intToU32 (z : Int) : Nat := (z % (4294967296 : Int)).toNat

/-- Conversion of a C `int` value to `unsigned long long`. -/
def intToU64 (z : Int) : Nat := (z % (18446744073709551616 : Int)).toNat

/-- A candidate saved by the reverse search: `pllcfg[PLLCFG_M]`,
`pllcfg[PLLCFG_N]`, `pllcfg[PLLCFG_P]` and `*fracv` (the search always
sets `Q = R = 0` and `O = PQR(1,0,0)`). -/
structure Pll1Cand where
  M : Nat
  N : Nat
  P : Nat
  FRACV : Nat
deriving DecidableEq

/-- Running state of the reverse search: saved best candidate,
`best_diff`, and whether the `diff == 0` early return has fired. -/
structure SearchSt where
  best : Option Pll1Cand
  best_diff : Nat
  done : Bool
deriving DecidableEq

/-- One iteration of the two-round fractional refinement: the returned
Bool is the `break` on `frac > FRAC_MAX`.  All quantities stay far below
2^64 (`post` is at most 16 MHz and `n` at most 99), so the 64-bit
products cannot wrap for in-range `frac`. -/
def pll1_refine_iter (outputFreq post divm divp n : Nat)
    (s : SearchSt) (frac : Int) : SearchSt × Int × Bool :=
  if 8192 < frac then (s, frac, true)
  else
    let vco := ((post * (n + 1)) % U64 + ((post * intToU64 frac) % U64 / 8192)) % U64
    if vco < 400000000 ∨ 800000000 < vco then (s, frac + 1, false)
    else
      let freqc := vco / (divp + 1)
      let diff := if outputFreq < freqc then freqc - outputFreq
                  else outputFreq - freqc
      if diff < s.best_diff then
        (⟨some ⟨divm, n, divp, intToU32 frac⟩, diff, diff = 0⟩, frac + 1, false)
      else
        (s, frac + 1, false)

/-- The two fractional refinement rounds (`for (i = 2; i != 0; i--)`). -/
def pll1_frac_loop (outputFreq post divm divp n : Nat)
    (s : SearchSt) (frac : Int) : SearchSt :=
  if s.done then s
  else
    match pll1_refine_iter outputFreq post divm divp n s frac with
    | (s1, _, true) => s1
    | (s1, f1, false) =>
      if s1.done then s1
      else (pll1_refine_iter outputFreq post divm divp n s1 f1).1

/-- The `divp` loop body.  `freq`, `divn` and `frac` follow the source:
`divn + 1` is `freq / input_freq` truncated, and the initial `frac` is
`freq * 8192 / input_freq - (divn + 1) * 8192` (nonnegative, see
`pll1_frac0_nonneg`). -/
def pll1_divp_body (outputFreq input divm post : Nat)
    (s : SearchSt) (divp : Nat) : SearchSt :=
  if s.done then s
  else
    let freq := outputFreq * (divm + 1) * (divp + 1)
    let divn : Int := ((freq / input : Nat) : Int) - 1
    if divn < 24 ∨ 99 < divn then s
    else
      let n := divn.toNat
      let frac : Int := ((freq * 8192 / input : Nat) : Int) - (divn + 1) * 8192
      pll1_frac_loop outputFreq post divm divp n s frac

/-- The `divm` loop body (`divm` runs 63 down to 0). -/
def pll1_divm_body (outputFreq input : Nat) (s : SearchSt) (k : Nat) :
    SearchSt :=
  let divm := 63 - k
  if s.done then s
  else
    let post := input / (divm + 1)
    if post < 8000000 ∨ 16000000 < post then s
    else (List.range 128).foldl (pll1_divp_body outputFreq input divm post) s

/-- Model of `clk_compute_pll1_settings`: `none` is the `-1` return
(no candidate found), `some` the saved `(M, N, P, FRAC)`. -/
def clk_compute_pll1_settings (input_freq freq_khz : Nat) : Option Pll1Cand :=
  let outputFreq := (freq_khz * 1000) % U32
  ((List.range 64).foldl (pll1_divm_body outputFreq input_freq)
    ⟨none, UINT_MAX, false⟩).best

/-- Half-VCO value of a candidate, as checked inside the search. -/
def halfVco (input m n f : Nat) : Nat :=
  (input / (m + 1)) * (n + 1) + (input / (m + 1)) * f / 8192

/-- Domain constraints the spec demands of every synthesized OPP entry. -/
def candOk (input : Nat) (c : Pll1Cand) : Prop :=
  8000000 ≤ input / (c.M + 1) ∧ input / (c.M + 1) ≤ 16000000 ∧
  24 ≤ c.N ∧ c.N ≤ 99 ∧ c.P ≤ 127 ∧ c.FRACV ≤ 8192 ∧
  400000000 ≤ halfVco input c.M c.N c.FRACV ∧
  halfVco input c.M c.N c.FRACV ≤ 800000000

/-! ## Concrete states for witnesses and counterexamples -/

/-- Register state for the C4 witness: PLL1 programmed with M = 1,
N = 65, P = 1, FRACV = 0 with FRACLE set, fed from HSE. -/
def c4regs : RegFile := fun o =>
  if o = RCC_RCK12SELR then 1
  else if o = RCC_PLL1CFGR1 then 65601
  else if o = RCC_PLL1FRACR then 65536
  else if o = RCC_PLL1CFGR2 then 1
  else 0

def c4osc : OscF := fun i => if i = OSC_HSE then 24000000 else 0

def c4cfg : PllCfg := ⟨1, 65, 1, 0, 0, 1⟩

/-- Register state for the C5 counterexample: as `c4regs` but with
`PLLRDY` also set in `PLL1CR` (a running, locked PLL). -/
def c5regs : RegFile := fun o =>
  if o = RCC_PLL1CR then 3
  else if o = RCC_RCK12SELR then 1
  else if o = RCC_PLL1CFGR1 then 65601
  else if o = RCC_PLL1FRACR then 65536
  else if o = RCC_PLL1CFGR2 then 1
  else 0

def c5osc : OscF := fun i => if i = OSC_HSE then 24000000 else 0

def c5cfg : PllCfg := ⟨1, 65, 1, 0, 0, 1⟩

/-- The `clksrc` binding value for the PLL12 selector: register offset in
the upper bits, source value 1 (HSE) in the lower. -/
def c5clksrc : Nat := 641

/-- Register state matching the candidate the C3 counterexample search
returns: M = 2, N = 80, P = 0, FRACV = 2047 with FRACLE set. -/
def c3regs : RegFile := fun o =>
  if o = RCC_RCK12SELR then 1
  else if o = RCC_PLL1CFGR1 then 131152
  else if o = RCC_PLL1FRACR then 81912
  else if o = RCC_PLL1CFGR2 then 0
  else 0

def c3osc : OscF := fun i => if i = OSC_HSE then 24000000 else 0

/-- The amended always-on set: oscillator rails, HSE/2, the PLL1..PLL3
outputs, CK_AXI, CK_MPU, CK_MCU and RTC (PLL4 outputs excluded). -/
def alwaysOnAmended : List Nat :=
  [CK_HSE, CK_CSI, CK_LSI, CK_LSE, CK_HSI, CK_HSE_DIV2,
   PLL1_P, PLL1_Q, PLL1_R, PLL2_P, PLL2_Q, PLL2_R, PLL3_P, PLL3_Q, PLL3_R,
   CK_AXI, CK_MPU, CK_MCU, RTC]

/-- A quiescent gate state: all refcounts 0, all hardware bits clear. -/
def c8st : GatesState := ⟨fun _ => 0, fun _ => false⟩

/-- Register state for the C9 (S6) scenario: AXI sourced from PLL2_P
(M = 2, N = 65, FRACV = 4096 with FRACLE, P = 1, so 266 MHz), AXIDIV
field 1, APB5DIV field 2. -/
def c9regs : RegFile := fun o =>
  if o = RCC_ASSCKSELR then 2
  else if o = RCC_RCK12SELR then 1
  else if o = RCC_PLL2CFGR1 then 131137
  else if o = RCC_PLL2FRACR then 98304
  else if o = RCC_PLL2CFGR2 then 1
  else if o = RCC_AXIDIVR then 1
  else if o = RCC_APB5DIVR then 2
  else 0

def c9osc : OscF := fun i => if i = OSC_HSE then 24000000 else 0

/-- All-zero register file and oscillator table, for closed instances. -/
def zeroRegs : RegFile := fun _ => 0

def zeroOsc : OscF := fun _ => 0

/-- OPP table for the C6 counterexample: two populated 650000 kHz /
800000 kHz entries and a set validity sentinel. -/
def c6settings : Pll1Settings := ⟨PLL1_SETTINGS_VALID_ID, [650000, 800000]⟩

/-- OPP table and MPU-on-PLL1 register state for the C7 witness. -/
def c7settings : Pll1Settings := ⟨PLL1_SETTINGS_VALID_ID, [650000, 800000]⟩

def c7regs : RegFile := fun o => if o = RCC_MPCKSELR then 2 else 0

/-! ## Spec-side formulation of the AXI rate walk (for claim C9) -/

/-- Stated from the spec's words: the AXI subsystem rate is the selected
source rate (HSI, HSE or PLL2_P) divided by the AXIDIV table value
`{1,2,3,4,4,4,4,4}` indexed by the AXIDIV field. -/
def axi_rate_spec (regs : RegFile) (osc : OscF) : Nat :=
  let sel := read regs RCC_ASSCKSELR &&& RCC_SELR_SRC_MASK
  let src :=
    if sel = RCC_ASSCKSELR_HSI then stm32mp1_clk_get_fixed osc OSC_HSI
    else if sel = RCC_ASSCKSELR_HSE then stm32mp1_clk_get_fixed osc OSC_HSE
    else if sel = RCC_ASSCKSELR_PLL then
      stm32mp1_read_pll_freq regs osc .PLL2 .DIV_P
    else 0
  src / [1, 2, 3, 4, 4, 4, 4, 4].getD (read regs RCC_AXIDIVR &&& RCC_AXIDIV_MASK) 4

/-- Stated from the spec's words: the APB rails shift further right by
the APBxDIV table value `{0,1,2,3,4,4,4,4}` indexed by the APBxDIV
field of the given divider register. -/
def apb_shift_spec (regs : RegFile) (apbreg : Nat) : Nat :=
  [0, 1, 2, 3, 4, 4, 4, 4].getD (read regs apbreg &&& RCC_APBXDIV_MASK) 4

/-- Register state for the C10 witness: STGEN selector field holds 3,
past the end of its two-entry candidate tuple. -/
def c10regs : RegFile := fun o => if o = RCC_STGENCKSELR then 3 else 0

/-! ## Helper bounds -/

lemma get_fixed_lt (osc : OscF) (idx : Nat) :
    stm32mp1_clk_get_fixed osc idx < U32 := by
  unfold stm32mp1_clk_get_fixed
  split
  · norm_num [U32]
  · exact Nat.mod_lt _ (by norm_num [U32])

lemma get_fref_lt (regs : RegFile) (osc : OscF) (pll : ClkPll) :
    stm32mp1_pll_get_fref regs osc pll < U32 :=
  get_fixed_lt _ _

lemma and_shiftRight_le (x m s : Nat) : (x &&& m) >>> s ≤ m >>> s := by
  rw [Nat.shiftRight_eq_div_pow, Nat.shiftRight_eq_div_pow]
  exact Nat.div_le_div_right Nat.and_le_right

lemma shiftLeft13 (a : Nat) : a <<< 13 = a * 8192 := by
  rw [Nat.shiftLeft_eq]

/-- Pure (overflow-free) form of `stm32mp1_pll_get_fvco`: the 64-bit
reductions in the code are value-preserving because the reference rate is
a 32-bit quantity and the register fields are mask-bounded. -/
lemma pll_get_fvco_spec (regs : RegFile) (osc : OscF) (pll : ClkPll) :
    stm32mp1_pll_get_fvco regs osc pll =
      (let cfgr1 := read regs pll.pllxcfgr1
       let fracr := read regs pll.pllxfracr
       let divm := (cfgr1 &&& RCC_PLLNCFGR1_DIVM_MASK) >>> RCC_PLLNCFGR1_DIVM_SHIFT
       let divn := cfgr1 &&& RCC_PLLNCFGR1_DIVN_MASK
       let fracv := (fracr &&& RCC_PLLNFRACR_FRACV_MASK) >>> RCC_PLLNFRACR_FRACV_SHIFT
       let refclk := stm32mp1_pll_get_fref regs osc pll
       if fracr &&& RCC_PLLNFRACR_FRACLE ≠ 0 then
         refclk * ((divn + 1) * 8192 + fracv) / ((divm + 1) * 8192)
       else
         refclk * (divn + 1) / (divm + 1)) := by
  have href := get_fref_lt regs osc pll
  have hrefle : stm32mp1_pll_get_fref regs osc pll ≤ 4294967295 := by
    have := href; unfold U32 at this; omega
  unfold stm32mp1_pll_get_fvco
  dsimp only
  have hdivn : read regs pll.pllxcfgr1 &&& RCC_PLLNCFGR1_DIVN_MASK ≤ 511 := by
    have h := Nat.and_le_right (n := read regs pll.pllxcfgr1)
      (m := RCC_PLLNCFGR1_DIVN_MASK)
    unfold RCC_PLLNCFGR1_DIVN_MASK at h ⊢; omega
  have hdivm : (read regs pll.pllxcfgr1 &&& RCC_PLLNCFGR1_DIVM_MASK) >>>
      RCC_PLLNCFGR1_DIVM_SHIFT ≤ 63 := by
    have h := and_shiftRight_le (read regs pll.pllxcfgr1)
      RCC_PLLNCFGR1_DIVM_MASK RCC_PLLNCFGR1_DIVM_SHIFT
    have h2 : RCC_PLLNCFGR1_DIVM_MASK >>> RCC_PLLNCFGR1_DIVM_SHIFT = 63 := by
      decide
    omega
  have hfracv : (read regs pll.pllxfracr &&& RCC_PLLNFRACR_FRACV_MASK) >>>
      RCC_PLLNFRACR_FRACV_SHIFT ≤ 8191 := by
    have h := and_shiftRight_le (read regs pll.pllxfracr)
      RCC_PLLNFRACR_FRACV_MASK RCC_PLLNFRACR_FRACV_SHIFT
    have h2 : RCC_PLLNFRACR_FRACV_MASK >>> RCC_PLLNFRACR_FRACV_SHIFT = 8191 := by
      decide
    omega
  split
  · -- fractional path
    rw [shiftLeft13, shiftLeft13]
    have hnum1 : ((read regs pll.pllxcfgr1 &&& RCC_PLLNCFGR1_DIVN_MASK) + 1) * 8192 +
        (read regs pll.pllxfracr &&& RCC_PLLNFRACR_FRACV_MASK) >>>
          RCC_PLLNFRACR_FRACV_SHIFT ≤ 4202495 := by
      have : ((read regs pll.pllxcfgr1 &&& RCC_PLLNCFGR1_DIVN_MASK) + 1) * 8192 ≤
          512 * 8192 := Nat.mul_le_mul_right _ (by omega)
      omega
    rw [Nat.mod_eq_of_lt (a := _ + _) (by unfold U64; omega),
      Nat.mod_eq_of_lt (a := _ * _)
        (lt_of_le_of_lt (Nat.mul_le_mul hrefle hnum1) (by norm_num [U64])),
      Nat.mod_eq_of_lt (a := _ * 8192)
        (lt_of_le_of_lt (Nat.mul_le_mul_right 8192 (by omega : _ + 1 ≤ 64))
          (by norm_num [U64]))]
  · -- integer path
    rw [Nat.mod_eq_of_lt (a := _ * _)
      (lt_of_le_of_lt (Nat.mul_le_mul hrefle (by omega : _ + 1 ≤ 512))
        (by norm_num [U64]))]

lemma read_write_self (r : RegFile) (off v : Nat) :
    read (write r off v) off = v % U32 := by
  unfold read write
  simp [Nat.mod_mod_of_dvd]

lemma read_write_other (r : RegFile) (off off' v : Nat) (h : off' ≠ off) :
    read (write r off v) off' = read r off' := by
  unfold read write
  simp [h]

lemma or_lt_U32 {a b : Nat} (ha : a < U32) (hb : b < U32) : a ||| b < U32 := by
  have h : U32 = 2 ^ 32 := by norm_num [U32]
  rw [h] at ha hb ⊢
  exact Nat.or_lt_two_pow ha hb

lemma and_mask_lt_U32 (x m : Nat) (hm : m < U32) : x &&& m < U32 :=
  lt_of_le_of_lt Nat.and_le_right hm

/-! ## Claim C2: forward PLL math -/

/-- C2: for every PLL the computed VCO-side frequency is
`ref * ((N+1)*2^13 + FRAC) / ((M+1)*2^13)` when FRACLE is set and
`ref * (N+1) / (M+1)` otherwise (64-bit truncating arithmetic), the
per-output rate divides that by `divider + 1`, and the S1/S2 literal
scenarios hold (Fvco 792 MHz / Fout 396 MHz, and Fvco 798 MHz /
Fout 399 MHz with FRAC 4096). -/
theorem C2_pll_forward_math :
    (∀ (regs : RegFile) (osc : OscF) (pll_id : PllId) (div_id : DivId),
      stm32mp1_read_pll_freq regs osc pll_id div_id =
        (let pll := pll_ref pll_id
         let cfgr1 := read regs pll.pllxcfgr1
         let fracr := read regs pll.pllxfracr
         let divm := (cfgr1 &&& RCC_PLLNCFGR1_DIVM_MASK) >>> RCC_PLLNCFGR1_DIVM_SHIFT
         let divn := cfgr1 &&& RCC_PLLNCFGR1_DIVN_MASK
         let fracv := (fracr &&& RCC_PLLNFRACR_FRACV_MASK) >>>
           RCC_PLLNFRACR_FRACV_SHIFT
         let refclk := stm32mp1_pll_get_fref regs osc pll
         let divy := (read regs pll.pllxcfgr2 >>> pllncfgr2 div_id) &&&
           RCC_PLLNCFGR2_DIVX_MASK
         (if fracr &&& RCC_PLLNFRACR_FRACLE ≠ 0 then
            refclk * ((divn + 1) * 8192 + fracv) / ((divm + 1) * 8192)
          else
            refclk * (divn + 1) / (divm + 1)) / (divy + 1))) ∧
    stm32mp1_pll_get_fvco c2regsInt c2osc (pll_ref .PLL1) = 792000000 ∧
    stm32mp1_read_pll_freq c2regsInt c2osc .PLL1 .DIV_P = 396000000 ∧
    stm32mp1_pll_get_fvco c2regsFrac c2osc (pll_ref .PLL1) = 798000000 ∧
    stm32mp1_read_pll_freq c2regsFrac c2osc .PLL1 .DIV_P = 399000000 := by
  refine ⟨fun regs osc pll_id div_id => ?_, by decide, by decide, by decide,
    by decide⟩
  unfold stm32mp1_read_pll_freq
  dsimp only
  rw [pll_get_fvco_spec]

/-! ## Claim C1: refcount discipline -/

/-- C1: starting from count 0 and hardware off, enable/enable/disable/
disable yields counts 1, 2, 1, 0 with the hardware bit set exactly while
the count is nonzero, one more disable panics; the invariant
`count = 0 <-> hardware off` (together with the bound `count < UINT_MAX`
that the panic guard enforces) is preserved by every enable and disable,
the hardware bit is on after any successful enable, and incrementing the
count to `UINT_MAX` is fatal. -/
theorem C1_refcount_discipline :
    (refcnt_enable 0 false = some (1, true) ∧
     refcnt_enable 1 true = some (2, true) ∧
     refcnt_disable 2 true = some (1, true) ∧
     refcnt_disable 1 true = some (0, false) ∧
     refcnt_disable 0 false = none) ∧
    (∀ c hw c' hw', (c = 0 ↔ hw = false) → c < UINT_MAX →
       refcnt_enable c hw = some (c', hw') →
       ((c' = 0 ↔ hw' = false) ∧ c' < UINT_MAX ∧ hw' = true)) ∧
    (∀ c hw c' hw', (c = 0 ↔ hw = false) → c < UINT_MAX →
       refcnt_disable c hw = some (c', hw') →
       ((c' = 0 ↔ hw' = false) ∧ c' < UINT_MAX)) ∧
    (∀ hw, refcnt_enable (UINT_MAX - 1) hw = none) := by
  refine ⟨⟨by decide, by decide, by decide, by decide, by decide⟩, ?_, ?_, ?_⟩
  · intro c hw c' hw' hinv hlt h
    unfold refcnt_enable at h
    have hmod : (c + 1) % U32 = c + 1 :=
      Nat.mod_eq_of_lt (by unfold UINT_MAX at hlt; unfold U32; omega)
    dsimp only at h
    rw [hmod] at h
    split at h
    · exact absurd h (by simp)
    · rename_i hne
      rw [Option.some_inj, Prod.mk.injEq] at h
      obtain ⟨h1, h2⟩ := h
      have hhw' : hw' = true := by
        by_cases hc : c = 0
        · rw [if_pos hc] at h2; exact h2.symm
        · rw [if_neg hc] at h2
          have hht : hw = true := by
            cases hw
            · exact absurd (hinv.mpr rfl) hc
            · rfl
          rw [← h2, hht]
      refine ⟨?_, by omega, hhw'⟩
      rw [hhw']
      constructor
      · intro h0; exact absurd h0 (by omega)
      · intro hfalse; simp at hfalse
  · intro c hw c' hw' hinv hlt h
    unfold refcnt_disable at h
    split at h
    · exact absurd h (by simp)
    · rename_i hne
      dsimp only at h
      rw [Option.some_inj, Prod.mk.injEq] at h
      obtain ⟨h1, h2⟩ := h
      have hhw : hw = true := by
        cases hw
        · exact absurd (hinv.mpr rfl) hne
        · rfl
      subst hhw
      by_cases hc1 : c - 1 = 0
      · rw [if_pos hc1] at h2
        refine ⟨?_, by omega⟩
        rw [← h1, ← h2]
        simp [hc1]
      · rw [if_neg hc1] at h2
        refine ⟨?_, by omega⟩
        rw [← h1, ← h2]
        simp [hc1]
  · intro hw
    unfold refcnt_enable
    have : (UINT_MAX - 1 + 1) % U32 = UINT_MAX := by decide
    simp [this]

/-- Closed witness for C1: the invariant-preservation parts applied at
count 1, and the overflow part at `UINT_MAX - 1`. -/
theorem C1_refcount_discipline_witness :
    ((2 = 0 ↔ true = false) ∧ 2 < UINT_MAX ∧ true = true) ∧
    ((0 = 0 ↔ false = false) ∧ 0 < UINT_MAX) ∧
    refcnt_enable (UINT_MAX - 1) true = none :=
  ⟨C1_refcount_discipline.2.1 1 true 2 true (by decide) (by decide) (by decide),
   C1_refcount_discipline.2.2.1 1 true 0 false (by decide) (by decide)
     (by decide),
   C1_refcount_discipline.2.2.2 true⟩

/-! ## Claim C4: the on-the-fly decision -/

/-- C4: whenever the prospective configuration-register-1 word is
computable (post-M rate in range) and the decision routine returns a
decision, it returns stop-reconfigure (-1) exactly when that word differs
from the current register, same (1) exactly when additionally the
prospective fractional word `(frac << shift) | FRACLE` and output-divider
word both equal the current registers, and on-the-fly (0) in every
remaining case. -/
theorem C4_on_the_fly_decision (regs : RegFile) (osc : OscF) (cfg : PllCfg)
    (fracv : Nat) (v1 : Nat) (r : Int)
    (hc : stm32mp1_pll_compute_pllxcfgr1 regs osc (pll_ref .PLL1) cfg = some v1)
    (hr : stm32mp1_is_pll_config_on_the_fly regs osc .PLL1 cfg fracv = some r) :
    (r = -1 ↔ read regs (pll_ref .PLL1).pllxcfgr1 ≠ v1) ∧
    (r = 1 ↔ (read regs (pll_ref .PLL1).pllxcfgr1 = v1 ∧
      read regs (pll_ref .PLL1).pllxfracr =
        ((fracv <<< RCC_PLLNFRACR_FRACV_SHIFT) % U32) ||| RCC_PLLNFRACR_FRACLE ∧
      read regs (pll_ref .PLL1).pllxcfgr2 = stm32mp1_pll_compute_pllxcfgr2 cfg)) ∧
    (r = 0 ↔ (read regs (pll_ref .PLL1).pllxcfgr1 = v1 ∧
      ¬(read regs (pll_ref .PLL1).pllxfracr =
          ((fracv <<< RCC_PLLNFRACR_FRACV_SHIFT) % U32) ||| RCC_PLLNFRACR_FRACLE ∧
        read regs (pll_ref .PLL1).pllxcfgr2 =
          stm32mp1_pll_compute_pllxcfgr2 cfg))) := by
  unfold stm32mp1_is_pll_config_on_the_fly at hr
  dsimp only at hr
  rw [hc] at hr
  dsimp only at hr
  split at hr
  · rename_i hne
    rw [Option.some_inj] at hr
    subst hr
    refine ⟨⟨fun _ => hne, fun _ => rfl⟩, ?_, ?_⟩
    · constructor
      · intro h; exact absurd h (by decide)
      · intro h; exact absurd h.1 hne
    · constructor
      · intro h; exact absurd h (by decide)
      · intro h; exact absurd h.1 hne
  · rename_i heq
    push_neg at heq
    split at hr
    · rename_i hsame
      rw [Option.some_inj] at hr
      subst hr
      refine ⟨?_, ?_, ?_⟩
      · constructor
        · intro h; exact absurd h (by decide)
        · intro h; exact absurd heq h
      · exact ⟨fun _ => ⟨heq, hsame.1, hsame.2⟩, fun _ => rfl⟩
      · constructor
        · intro h; exact absurd h (by decide)
        · intro h; exact absurd ⟨hsame.1, hsame.2⟩ h.2
    · rename_i hdiff
      rw [Option.some_inj] at hr
      subst hr
      refine ⟨?_, ?_, ?_⟩
      · constructor
        · intro h; exact absurd h (by decide)
        · intro h; exact absurd heq h
      · constructor
        · intro h; exact absurd h (by decide)
        · intro h; exact absurd ⟨h.2.1, h.2.2⟩ hdiff
      · exact ⟨fun _ => ⟨heq, hdiff⟩, fun _ => rfl⟩

/-- Closed witness for C4, at a state whose registers all match the
requested configuration (decision `1`, "same parameters"). -/
theorem C4_on_the_fly_decision_witness :
    (1 : Int) = 1 ↔ (read c4regs (pll_ref .PLL1).pllxcfgr1 = 65601 ∧
      read c4regs (pll_ref .PLL1).pllxfracr =
        ((0 <<< RCC_PLLNFRACR_FRACV_SHIFT) % U32) ||| RCC_PLLNFRACR_FRACLE ∧
      read c4regs (pll_ref .PLL1).pllxcfgr2 =
        stm32mp1_pll_compute_pllxcfgr2 c4cfg) :=
  (C4_on_the_fly_decision c4regs c4osc c4cfg 0 65601 1 (by decide)
    (by decide)).2.1

/-! ## Claim C5: `matches` versus `configure` -/

lemma compute_pllxcfgr1_lt_U32 {regs : RegFile} {osc : OscF} {pll : ClkPll}
    {cfg : PllCfg} {v1 : Nat}
    (h : stm32mp1_pll_compute_pllxcfgr1 regs osc pll cfg = some v1) :
    v1 < U32 := by
  unfold stm32mp1_pll_compute_pllxcfgr1 at h
  dsimp only at h
  split at h
  · exact absurd h (by simp)
  · rw [Option.some_inj] at h
    subst h
    exact or_lt_U32
      (or_lt_U32 (and_mask_lt_U32 _ _ (by norm_num [RCC_PLLNCFGR1_DIVN_MASK, U32]))
        (and_mask_lt_U32 _ _ (by norm_num [RCC_PLLNCFGR1_DIVM_MASK, U32])))
      (and_mask_lt_U32 _ _ (by norm_num [RCC_PLLNCFGR1_IFRGE_MASK, U32]))

lemma compute_pllxcfgr2_lt_U32 (cfg : PllCfg) :
    stm32mp1_pll_compute_pllxcfgr2 cfg < U32 := by
  unfold stm32mp1_pll_compute_pllxcfgr2
  exact or_lt_U32
    (or_lt_U32 (and_mask_lt_U32 _ _ (by norm_num [RCC_PLLNCFGR2_DIVP_MASK, U32]))
      (and_mask_lt_U32 _ _ (by norm_num [RCC_PLLNCFGR2_DIVQ_MASK, U32])))
    (and_mask_lt_U32 _ _ (by norm_num [RCC_PLLNCFGR2_DIVR_MASK, U32]))

lemma fracword_lt_U32 (fracv : Nat) :
    ((fracv <<< RCC_PLLNFRACR_FRACV_SHIFT) % U32) ||| RCC_PLLNFRACR_FRACLE <
      U32 :=
  or_lt_U32 (Nat.mod_lt _ (by norm_num [U32]))
    (by norm_num [RCC_PLLNFRACR_FRACLE, U32])

lemma read_write (r : RegFile) (off off' v : Nat) :
    read (write r off v) off' = if off' = off then v % U32 else read r off' := by
  unfold read write
  split
  · simp [Nat.mod_mod_of_dvd]
  · rfl

/-- Register effect of a successful `stm32mp1_pll_config`: the three
registers it writes end up holding exactly the prospective words. -/
lemma pll_config_effect (regs : RegFile) (osc : OscF) (pll_id : PllId)
    (cfg : PllCfg) (fracv v1 : Nat)
    (hv : stm32mp1_pll_compute_pllxcfgr1 regs osc (pll_ref pll_id) cfg =
      some v1) :
    (stm32mp1_pll_config regs osc pll_id cfg fracv).map
      (fun r => (read r (pll_ref pll_id).pllxcfgr1,
                 read r (pll_ref pll_id).pllxfracr,
                 read r (pll_ref pll_id).pllxcfgr2)) =
      some (v1,
        ((fracv <<< RCC_PLLNFRACR_FRACV_SHIFT) % U32) ||| RCC_PLLNFRACR_FRACLE,
        stm32mp1_pll_compute_pllxcfgr2 cfg) := by
  have hb1 : v1 < U32 := compute_pllxcfgr1_lt_U32 hv
  have hb2 : stm32mp1_pll_compute_pllxcfgr2 cfg < U32 := compute_pllxcfgr2_lt_U32 cfg
  have hbf := fracword_lt_U32 fracv
  unfold stm32mp1_pll_config
  dsimp only
  rw [hv]
  dsimp only
  rw [Option.map_some', Option.some_inj, Prod.mk.injEq, Prod.mk.injEq]
  cases pll_id <;>
    refine ⟨?_, ?_, ?_⟩ <;>
    simp only [pll_ref, read_write, RCC_PLL1CFGR1, RCC_PLL1CFGR2,
      RCC_PLL1FRACR, RCC_PLL2CFGR1, RCC_PLL2CFGR2, RCC_PLL2FRACR,
      RCC_PLL3CFGR1, RCC_PLL3CFGR2, RCC_PLL3FRACR, RCC_PLL4CFGR1,
      RCC_PLL4CFGR2, RCC_PLL4FRACR] <;>
    norm_num <;>
    first
      | exact Nat.mod_eq_of_lt hb1
      | exact Nat.mod_eq_of_lt hb2
      | exact Nat.mod_eq_of_lt hbf

/-- Characterization of `stm32mp1_check_pll_conf`: it demands the control
register to equal exactly the PLLON bit, the live mux to match, and the
three configuration registers to hold exactly the words a configure with
the same parameters would write. -/
lemma check_pll_conf_iff (regs : RegFile) (osc : OscF) (pll_id : PllId)
    (clksrc : Nat) (cfg : PllCfg) (fracv : Nat) :
    stm32mp1_check_pll_conf regs osc pll_id clksrc cfg fracv = true ↔
      (read regs (pll_ref pll_id).pllxcr = RCC_PLLNCR_PLLON ∧
       read regs (clksrc >>> 4) &&& RCC_SELR_SRC_MASK =
         clksrc &&& RCC_SELR_SRC_MASK ∧
       (∃ v1, stm32mp1_pll_compute_pllxcfgr1 regs osc (pll_ref pll_id) cfg =
          some v1 ∧ read regs (pll_ref pll_id).pllxcfgr1 = v1) ∧
       read regs (pll_ref pll_id).pllxfracr =
         ((fracv <<< RCC_PLLNFRACR_FRACV_SHIFT) % U32) |||
           RCC_PLLNFRACR_FRACLE ∧
       read regs (pll_ref pll_id).pllxcfgr2 =
         stm32mp1_pll_compute_pllxcfgr2 cfg) := by
  unfold stm32mp1_check_pll_conf
  dsimp only
  by_cases h1 : read regs (pll_ref pll_id).pllxcr ≠ RCC_PLLNCR_PLLON
  · rw [if_pos h1]
    simp only [Bool.false_eq_true, false_iff]
    intro h
    exact h1 h.1
  · rw [if_neg h1]
    push_neg at h1
    by_cases h2 : read regs (clksrc >>> 4) &&& RCC_SELR_SRC_MASK ≠
        clksrc &&& RCC_SELR_SRC_MASK
    · rw [if_pos h2]
      simp only [Bool.false_eq_true, false_iff]
      intro h
      exact h2 h.2.1
    · rw [if_neg h2]
      push_neg at h2
      by_cases h3 : stm32mp1_clk_get_fixed osc
            ((pll_ref pll_id).refclk (read regs (pll_ref pll_id).rckxselr &&&
              RCC_SELR_REFCLK_SRC_MASK)) / (cfg.M + 1) <
            (stm32mp1_pll (pll_ref pll_id).plltype).refclk_min * 1000000 ∨
          (stm32mp1_pll (pll_ref pll_id).plltype).refclk_max * 1000000 <
            stm32mp1_clk_get_fixed osc
              ((pll_ref pll_id).refclk (read regs (pll_ref pll_id).rckxselr &&&
                RCC_SELR_REFCLK_SRC_MASK)) / (cfg.M + 1)
      · rw [if_pos h3]
        simp only [Bool.false_eq_true, false_iff]
        rintro ⟨-, -, ⟨v1, hv1, -⟩, -, -⟩
        unfold stm32mp1_pll_compute_pllxcfgr1 at hv1
        dsimp only at hv1
        rw [if_pos h3] at hv1
        exact absurd hv1 (by simp)
      · rw [if_neg h3]
        have hcomp : stm32mp1_pll_compute_pllxcfgr1 regs osc (pll_ref pll_id)
            cfg = some
            ((((cfg.N <<< RCC_PLLNCFGR1_DIVN_SHIFT) % U32) &&&
                RCC_PLLNCFGR1_DIVN_MASK) |||
              (((cfg.M <<< RCC_PLLNCFGR1_DIVM_SHIFT) % U32) &&&
                RCC_PLLNCFGR1_DIVM_MASK) |||
              ((((if (pll_ref pll_id).plltype = .PLL_800 ∧
                    8000000 ≤ stm32mp1_clk_get_fixed osc
                      ((pll_ref pll_id).refclk
                        (read regs (pll_ref pll_id).rckxselr &&&
                          RCC_SELR_REFCLK_SRC_MASK)) / (cfg.M + 1)
                  then 1 else 0) <<< RCC_PLLNCFGR1_IFRGE_SHIFT) % U32) &&&
                RCC_PLLNCFGR1_IFRGE_MASK)) := by
          unfold stm32mp1_pll_compute_pllxcfgr1
          dsimp only
          rw [if_neg h3]
        by_cases h4 : read regs (pll_ref pll_id).pllxcfgr1 ≠
            ((((cfg.N <<< RCC_PLLNCFGR1_DIVN_SHIFT) % U32) &&&
                RCC_PLLNCFGR1_DIVN_MASK) |||
              (((cfg.M <<< RCC_PLLNCFGR1_DIVM_SHIFT) % U32) &&&
                RCC_PLLNCFGR1_DIVM_MASK) |||
              ((((if (pll_ref pll_id).plltype = .PLL_800 ∧
                    8000000 ≤ stm32mp1_clk_get_fixed osc
                      ((pll_ref pll_id).refclk
                        (read regs (pll_ref pll_id).rckxselr &&&
                          RCC_SELR_REFCLK_SRC_MASK)) / (cfg.M + 1)
                  then 1 else 0) <<< RCC_PLLNCFGR1_IFRGE_SHIFT) % U32) &&&
                RCC_PLLNCFGR1_IFRGE_MASK))
        · rw [if_pos h4]
          simp only [Bool.false_eq_true, false_iff]
          rintro ⟨-, -, ⟨v1, hv1, hr1⟩, -, -⟩
          rw [hcomp, Option.some_inj] at hv1
          exact h4 (hv1 ▸ hr1)
        · rw [if_neg h4]
          push_neg at h4
          by_cases h5 : read regs (pll_ref pll_id).pllxfracr ≠
              ((fracv <<< RCC_PLLNFRACR_FRACV_SHIFT) % U32) |||
                RCC_PLLNFRACR_FRACLE
          · rw [if_pos h5]
            simp only [Bool.false_eq_true, false_iff]
            intro h
            exact h5 h.2.2.2.1
          · rw [if_neg h5]
            push_neg at h5
            rw [decide_eq_true_eq]
            constructor
            · intro h6
              exact ⟨h1, h2, ⟨_, hcomp, h4⟩, h5, h6⟩
            · intro h
              exact h.2.2.2.2

/-- C5 (amended): `matches` returns true iff the PLL control register
equals exactly the PLLON bit value, the live mux field equals the
requested source, the post-M reference is in range, and the three
registers `configure` writes already hold exactly the words it would
write; consequently a `matches` success implies a subsequent `configure`
with the same parameters is register-neutral (the converse is refuted by
`C5_counterexample`). -/
theorem C5_matches_characterization :
    (∀ (regs : RegFile) (osc : OscF) (pll_id : PllId) (clksrc : Nat)
       (cfg : PllCfg) (fracv : Nat),
      stm32mp1_check_pll_conf regs osc pll_id clksrc cfg fracv = true ↔
        (read regs (pll_ref pll_id).pllxcr = RCC_PLLNCR_PLLON ∧
         read regs (clksrc >>> 4) &&& RCC_SELR_SRC_MASK =
           clksrc &&& RCC_SELR_SRC_MASK ∧
         (∃ v1, stm32mp1_pll_compute_pllxcfgr1 regs osc (pll_ref pll_id) cfg =
            some v1 ∧ read regs (pll_ref pll_id).pllxcfgr1 = v1) ∧
         read regs (pll_ref pll_id).pllxfracr =
           ((fracv <<< RCC_PLLNFRACR_FRACV_SHIFT) % U32) |||
             RCC_PLLNFRACR_FRACLE ∧
         read regs (pll_ref pll_id).pllxcfgr2 =
           stm32mp1_pll_compute_pllxcfgr2 cfg)) ∧
    (∀ (regs : RegFile) (osc : OscF) (pll_id : PllId) (clksrc : Nat)
       (cfg : PllCfg) (fracv : Nat),
      stm32mp1_check_pll_conf regs osc pll_id clksrc cfg fracv = true →
      (stm32mp1_pll_config regs osc pll_id cfg fracv).map
        (fun r => (read r (pll_ref pll_id).pllxcfgr1,
                   read r (pll_ref pll_id).pllxfracr,
                   read r (pll_ref pll_id).pllxcfgr2)) =
        some (read regs (pll_ref pll_id).pllxcfgr1,
              read regs (pll_ref pll_id).pllxfracr,
              read regs (pll_ref pll_id).pllxcfgr2)) := by
  refine ⟨check_pll_conf_iff, ?_⟩
  intro regs osc pll_id clksrc cfg fracv hchk
  obtain ⟨-, -, ⟨v1, hv1, hr1⟩, hfr, hc2⟩ :=
    (check_pll_conf_iff regs osc pll_id clksrc cfg fracv).mp hchk
  rw [pll_config_effect regs osc pll_id cfg fracv v1 hv1, hr1, hfr, hc2]

/-- Closed witness for C5, applying the characterization and the
register-neutrality direction at a state that `matches` accepts
(the `c4regs` state with `PLL1CR` holding exactly PLLON). -/
theorem C5_matches_characterization_witness :
    (stm32mp1_check_pll_conf
        (fun o => if o = RCC_PLL1CR then 1 else c4regs o) c4osc .PLL1
        c5clksrc c4cfg 0 = true) ∧
    (stm32mp1_pll_config
        (fun o => if o = RCC_PLL1CR then 1 else c4regs o) c4osc .PLL1
        c4cfg 0).map
      (fun r => (read r (pll_ref .PLL1).pllxcfgr1,
                 read r (pll_ref .PLL1).pllxfracr,
                 read r (pll_ref .PLL1).pllxcfgr2)) =
      some (read (fun o => if o = RCC_PLL1CR then 1 else c4regs o)
              (pll_ref .PLL1).pllxcfgr1,
            read (fun o => if o = RCC_PLL1CR then 1 else c4regs o)
              (pll_ref .PLL1).pllxfracr,
            read (fun o => if o = RCC_PLL1CR then 1 else c4regs o)
              (pll_ref .PLL1).pllxcfgr2) := by
  have hchk : stm32mp1_check_pll_conf
      (fun o => if o = RCC_PLL1CR then 1 else c4regs o) c4osc .PLL1
      c5clksrc c4cfg 0 = true := by decide
  exact ⟨hchk,
    C5_matches_characterization.2
      (fun o => if o = RCC_PLL1CR then 1 else c4regs o) c4osc .PLL1
      c5clksrc c4cfg 0 hchk⟩

/-- C5 counterexample: with PLL1 running and locked (`PLLON | PLLRDY` in
the control register) and every configuration register already equal to
the requested words, a configure would be bitwise-neutral on every
register it writes, yet `matches` returns false — so "returns true iff a
subsequent configure would leave every relevant register bitwise-equal"
fails, as does "returns true iff PLLON is set and the registers match". -/
theorem C5_counterexample :
    stm32mp1_check_pll_conf c5regs c5osc .PLL1 c5clksrc c5cfg 0 = false ∧
    read c5regs (pll_ref .PLL1).pllxcr &&& RCC_PLLNCR_PLLON =
      RCC_PLLNCR_PLLON ∧
    (stm32mp1_pll_config c5regs c5osc .PLL1 c5cfg 0).map
      (fun r => (read r (pll_ref .PLL1).pllxcfgr1,
                 read r (pll_ref .PLL1).pllxfracr,
                 read r (pll_ref .PLL1).pllxcfgr2)) =
      some (read c5regs (pll_ref .PLL1).pllxcfgr1,
            read c5regs (pll_ref .PLL1).pllxfracr,
            read c5regs (pll_ref .PLL1).pllxcfgr2) := by
  refine ⟨by decide, by decide, by decide⟩

/-! ## Claim C6: rounding to a supported operating point -/

lemma round_fold_le (F : Nat) (l : List Nat) (acc : Nat) (h : acc ≤ F) :
    l.foldl (fun acc f => if f ≤ F ∧ acc < f then f else acc) acc ≤ F := by
  induction l generalizing acc with
  | nil => exact h
  | cons x xs ih =>
    simp only [List.foldl_cons]
    split
    · rename_i hx; exact ih _ hx.1
    · exact ih _ h

lemma round_fold_mem (F : Nat) (l : List Nat) (acc : Nat) :
    l.foldl (fun acc f => if f ≤ F ∧ acc < f then f else acc) acc ∈ l ∨
      l.foldl (fun acc f => if f ≤ F ∧ acc < f then f else acc) acc = acc := by
  induction l generalizing acc with
  | nil => exact Or.inr rfl
  | cons x xs ih =>
    simp only [List.foldl_cons]
    split
    · rcases ih x with h | h
      · exact Or.inl (List.mem_cons_of_mem _ h)
      · exact Or.inl (by rw [h]; exact List.mem_cons_self x xs)
    · rcases ih acc with h | h
      · exact Or.inl (List.mem_cons_of_mem _ h)
      · exact Or.inr h

lemma round_fold_acc_le (F : Nat) (l : List Nat) (acc : Nat) :
    acc ≤ l.foldl (fun acc f => if f ≤ F ∧ acc < f then f else acc) acc := by
  induction l generalizing acc with
  | nil => exact le_refl _
  | cons x xs ih =>
    simp only [List.foldl_cons]
    split
    · rename_i hx; exact le_trans (le_of_lt hx.2) (ih x)
    · exact ih acc

lemma round_fold_ge (F : Nat) (l : List Nat) (acc : Nat) (x : Nat)
    (hx : x ∈ l) (hle : x ≤ F) :
    x ≤ l.foldl (fun acc f => if f ≤ F ∧ acc < f then f else acc) acc := by
  induction l generalizing acc with
  | nil => exact absurd hx (List.not_mem_nil x)
  | cons y ys ih =>
    simp only [List.foldl_cons]
    rcases List.mem_cons.mp hx with h | h
    · subst h
      by_cases hc : x ≤ F ∧ acc < x
      · rw [if_pos hc]; exact round_fold_acc_le F ys x
      · rw [if_neg hc]
        have : ¬acc < x := fun hlt => hc ⟨hle, hlt⟩
        exact le_trans (Nat.le_of_not_lt this) (round_fold_acc_le F ys acc)
    · split
      · exact ih _ h
      · exact ih _ h

/-- C6 (amended): with a valid OPP table the rounded value never exceeds
the request and dominates every table frequency not exceeding the
request, but it is 0 — not necessarily a stored table frequency — when
every table frequency exceeds the request (see `C6_counterexample`);
with an invalid table the currently-active OPP is returned. -/
theorem C6_round_opp (s : Pll1Settings) (current f : Nat) :
    (clk_pll1_settings_are_valid s = true →
      stm32mp1_round_opp_khz s current f ≤ f ∧
      (stm32mp1_round_opp_khz s current f ∈ s.freq ∨
        stm32mp1_round_opp_khz s current f = 0) ∧
      ∀ x ∈ s.freq, x ≤ f → x ≤ stm32mp1_round_opp_khz s current f) ∧
    (clk_pll1_settings_are_valid s = false →
      stm32mp1_round_opp_khz s current f = current) := by
  constructor
  · intro hv
    unfold stm32mp1_round_opp_khz
    rw [hv]
    simp only [Bool.not_true, Bool.false_eq_true, if_false]
    exact ⟨round_fold_le f s.freq 0 (Nat.zero_le f),
      round_fold_mem f s.freq 0,
      fun x hx hxle => round_fold_ge f s.freq 0 x hx hxle⟩
  · intro hv
    unfold stm32mp1_round_opp_khz
    rw [hv]
    rfl

/-- Closed witness for C6: rounding 700000 kHz against the two-point
table picks 650000, and an invalid table returns the current OPP. -/
theorem C6_round_opp_witness :
    stm32mp1_round_opp_khz c6settings 0 700000 ≤ 700000 ∧
    (stm32mp1_round_opp_khz c6settings 0 700000 ∈ c6settings.freq ∨
      stm32mp1_round_opp_khz c6settings 0 700000 = 0) ∧
    650000 ≤ stm32mp1_round_opp_khz c6settings 0 700000 ∧
    stm32mp1_round_opp_khz ⟨0, [650000, 800000]⟩ 123 700000 = 123 :=
  ⟨((C6_round_opp c6settings 0 700000).1 (by decide)).1,
   ((C6_round_opp c6settings 0 700000).1 (by decide)).2.1,
   ((C6_round_opp c6settings 0 700000).1 (by decide)).2.2 650000 (by decide)
     (by decide),
   (C6_round_opp ⟨0, [650000, 800000]⟩ 123 700000).2 (by decide)⟩

/-- C6 counterexample: with a valid table holding 650000 and 800000 kHz,
rounding a request of 1 kHz yields 0, which is not a stored table
frequency — refuting "returns the largest table frequency not exceeding
f ... for every f, including f smaller than every table frequency". -/
theorem C6_counterexample :
    clk_pll1_settings_are_valid c6settings = true ∧
    stm32mp1_round_opp_khz c6settings 0 1 = 0 ∧
    (0 : Nat) ∉ c6settings.freq := by
  refine ⟨by decide, by decide, by decide⟩

/-! ## Claim C7: `set_opp` guard ordering -/

/-- C7: `set_opp` is a state-preserving success when the request equals
the current OPP (even with an invalid table or a foreign MPU source);
otherwise it fails with access-denied on an invalid table (before looking
at the MPU mux), then with the permission error when the MPU source is
neither PLL1_P nor PLL1_P-through-MPUDIV; on a successful configuration
of a different OPP the stored current-OPP becomes the request. -/
theorem C7_set_opp_guards (cfgOk : Nat → Bool) (s : Pll1Settings)
    (regs : RegFile) (current freq : Nat) :
    (freq = current →
      stm32mp1_set_opp_khz cfgOk s regs current freq = some (0, current)) ∧
    (freq ≠ current → clk_pll1_settings_are_valid s = false →
      stm32mp1_set_opp_khz cfgOk s regs current freq =
        some (-EACCES, current)) ∧
    (freq ≠ current → clk_pll1_settings_are_valid s = true →
      read regs RCC_MPCKSELR &&& RCC_SELR_SRC_MASK ≠ RCC_MPCKSELR_PLL →
      read regs RCC_MPCKSELR &&& RCC_SELR_SRC_MASK ≠ RCC_MPCKSELR_PLL_MPUDIV →
      stm32mp1_set_opp_khz cfgOk s regs current freq =
        some (-EPERM, current)) ∧
    (freq ≠ current → clk_pll1_settings_are_valid s = true →
      (read regs RCC_MPCKSELR &&& RCC_SELR_SRC_MASK = RCC_MPCKSELR_PLL ∨
       read regs RCC_MPCKSELR &&& RCC_SELR_SRC_MASK = RCC_MPCKSELR_PLL_MPUDIV) →
      cfgOk freq = true →
      stm32mp1_set_opp_khz cfgOk s regs current freq = some (0, freq)) := by
  refine ⟨?_, ?_, ?_, ?_⟩
  · intro h
    unfold stm32mp1_set_opp_khz
    rw [if_pos h]
  · intro h hv
    unfold stm32mp1_set_opp_khz
    rw [if_neg h, hv]
    rfl
  · intro h hv h1 h2
    unfold stm32mp1_set_opp_khz
    rw [if_neg h, hv]
    simp only [Bool.not_true, Bool.false_eq_true, if_false]
    rw [if_pos ⟨h1, h2⟩]
  · intro h hv hsrc hcfg
    unfold stm32mp1_set_opp_khz
    rw [if_neg h, hv]
    simp only [Bool.not_true, Bool.false_eq_true, if_false]
    rw [if_neg (by push_neg; intro hc; rcases hsrc with hs | hs; exacts [absurd hs hc, hs]), hcfg]
    rfl

/-- Closed witness for C7: a no-op request, an invalid-table failure and
a successful OPP change with the MPU on PLL1_P. -/
theorem C7_set_opp_guards_witness :
    stm32mp1_set_opp_khz (fun _ => true) c7settings c7regs 650000 650000 =
      some (0, 650000) ∧
    stm32mp1_set_opp_khz (fun _ => true) ⟨0, []⟩ c7regs 650000 800000 =
      some (-EACCES, 650000) ∧
    stm32mp1_set_opp_khz (fun _ => true) c7settings c7regs 650000 800000 =
      some (0, 800000) :=
  ⟨(C7_set_opp_guards (fun _ => true) c7settings c7regs 650000 650000).1 rfl,
   (C7_set_opp_guards (fun _ => true) ⟨0, []⟩ c7regs 650000 800000).2.1
     (by decide) (by decide),
   (C7_set_opp_guards (fun _ => true) c7settings c7regs 650000 800000).2.2.2
     (by decide) (by decide) (Or.inl (by decide)) rfl⟩

/-! ## Claim C8: the always-on set -/

/-- C8 (amended): for the oscillator rails, HSE/2, the PLL1..PLL3
outputs, CK_AXI, CK_MPU, CK_MCU and RTC, enable and disable (with or
without refcounting) return immediately leaving the state untouched, and
`is_enabled` reports true.  (PLL4 outputs are not part of the set: see
`C8_counterexample`.) -/
theorem C8_always_on (st : GatesState) (id : Nat) (h : id ∈ alwaysOnAmended) :
    clock_is_always_on id = true ∧
    clk_enable_m st id true = some st ∧
    clk_disable_m st id true = some st ∧
    clk_enable_m st id false = some st ∧
    clk_disable_m st id false = some st ∧
    stm32mp_clk_is_enabled st id = some true := by
  fin_cases h <;> exact ⟨rfl, rfl, rfl, rfl, rfl, rfl⟩

/-- Closed witness for C8, at `CK_AXI` on the quiescent state. -/
theorem C8_always_on_witness :
    clock_is_always_on CK_AXI = true ∧
    clk_enable_m c8st CK_AXI true = some c8st ∧
    clk_disable_m c8st CK_AXI true = some c8st ∧
    clk_enable_m c8st CK_AXI false = some c8st ∧
    clk_disable_m c8st CK_AXI false = some c8st ∧
    stm32mp_clk_is_enabled c8st CK_AXI = some true :=
  C8_always_on c8st CK_AXI (by decide)

/-- C8 counterexample: `PLL4_P` — a PLL output the claim places in the
always-on set — is not always-on; enable, disable and `is_enabled` on it
panic (no gate-table entry) instead of no-opping and reporting true. -/
theorem C8_counterexample :
    clock_is_always_on PLL4_P = false ∧
    stm32mp_clk_is_enabled c8st PLL4_P = none ∧
    (clk_enable_m c8st PLL4_P true).isNone = true ∧
    (clk_disable_m c8st PLL4_P true).isNone = true :=
  ⟨rfl, rfl, rfl, rfl⟩

/-! ## Claim C9: the AXI subsystem rate walk -/

/-- C9: every AXI-subsystem rate is the selected source rate (HSI, HSE
or PLL2_P) divided by the AXIDIV table entry, PCLK4/PCLK5 further
right-shifted by their APBxDIV table entry; in the S6 scenario (PLL2_P
at 266 MHz, AXIDIV field 1, APB5DIV field 2) PCLK5 reads 33.25 MHz. -/
theorem C9_axi_rate_walk :
    (∀ (regs : RegFile) (osc : OscF),
      get_clock_rate regs osc P_ACLK = axi_rate_spec regs osc ∧
      get_clock_rate regs osc P_HCLK2 = axi_rate_spec regs osc ∧
      get_clock_rate regs osc P_HCLK6 = axi_rate_spec regs osc ∧
      get_clock_rate regs osc P_PCLK4 =
        axi_rate_spec regs osc >>> apb_shift_spec regs RCC_APB4DIVR ∧
      get_clock_rate regs osc P_PCLK5 =
        axi_rate_spec regs osc >>> apb_shift_spec regs RCC_APB5DIVR) ∧
    stm32mp1_read_pll_freq c9regs c9osc .PLL2 .DIV_P = 266000000 ∧
    get_clock_rate c9regs c9osc P_PCLK5 = 33250000 := by
  exact ⟨fun regs osc => ⟨rfl, rfl, rfl, rfl, rfl⟩, by decide, by decide⟩

/-! ## Claim C10: rate of unresolvable clocks -/

/-- C10 (amended): `clk_get_rate` returns 0 whenever the parent lookup
reports an error — in particular for a gate with no fixed parent and an
unknown selector (DDRPERFM) and for a selector field past the end of the
candidate tuple (STGEN with field value at least 2) — but an id matching
no identity-table or gate-table entry panics instead of returning 0. -/
theorem C10_unresolved_parent_rate :
    (∀ (regs : RegFile) (id : Nat) (e : Unit),
      stm32mp1_clk_get_parent regs id = some (.error e) →
      ∀ osc, stm32mp_clk_get_rate regs osc id = some 0) ∧
    (∀ (regs : RegFile) (osc : OscF),
      stm32mp_clk_get_rate regs osc DDRPERFM = some 0) ∧
    (∀ (regs : RegFile) (osc : OscF),
      2 ≤ (read regs RCC_STGENCKSELR &&& (3 <<< 0)) >>> 0 →
      stm32mp_clk_get_rate regs osc STGEN_K = some 0) ∧
    (stm32mp_clk_get_rate zeroRegs zeroOsc 300).isNone = true := by
  refine ⟨?_, fun regs osc => rfl, ?_, rfl⟩
  · intro regs id e h osc
    unfold stm32mp_clk_get_rate
    rw [h]
  · intro regs osc h
    have hp : stm32mp1_clk_get_parent regs STGEN_K =
        (match stgen_parents.get?
            ((read regs RCC_STGENCKSELR &&& (3 <<< 0)) >>> 0) with
         | some p => some (Except.ok p)
         | none => some (Except.error ())) := rfl
    have hnone : stgen_parents.get?
        ((read regs RCC_STGENCKSELR &&& (3 <<< 0)) >>> 0) = none := by
      rw [List.get?_eq_none]
      simpa [stgen_parents] using h
    rw [hnone] at hp
    unfold stm32mp_clk_get_rate
    rw [hp]

/-- Closed witness for C10: the out-of-range STGEN selector field and the
unknown-selector gate both resolve to rate 0. -/
theorem C10_unresolved_parent_rate_witness :
    stm32mp_clk_get_rate c10regs zeroOsc STGEN_K = some 0 ∧
    stm32mp_clk_get_rate c10regs zeroOsc DDRPERFM = some 0 :=
  ⟨C10_unresolved_parent_rate.2.2.1 c10regs zeroOsc (by decide),
   C10_unresolved_parent_rate.2.1 c10regs zeroOsc⟩

/-- C10 counterexample: clock id 300 matches no identity-table entry and
no gate-table entry, and `clk_get_rate` panics on it rather than
returning 0. -/
theorem C10_counterexample :
    ((List.range PARENT_NB).all (fun n => parent_id_clock_id n != 300)) =
      true ∧
    ((List.range NB_GATES).all (fun i => (gate_ref i).index != 300)) = true ∧
    (stm32mp_clk_get_rate zeroRegs zeroOsc 300).isNone = true :=
  ⟨by decide, by decide, rfl⟩

/-! ## Claim C3: the reverse PLL1 search -/

set_option maxRecDepth 8000

/-- C3 counterexample: for reference 24 MHz and target 649999 kHz the
search succeeds with (M, N, P, FRAC) = (2, 80, 0, 2047), but the forward
PLL math on that configuration (the `c3regs` register image of it) reads
649999023 Hz — 23 Hz away from 649999 * 1000, outside the claimed
±1 Hz. -/
theorem C3_counterexample :
    clk_compute_pll1_settings 24000000 649999 = some ⟨2, 80, 0, 2047⟩ ∧
    stm32mp1_read_pll_freq c3regs c3osc .PLL1 .DIV_P = 649999023 ∧
    649999 * 1000 + 1 < 649999023 := by
  refine ⟨by decide, by decide, by decide⟩

lemma foldl_inv {σ α : Type} (P : σ → Prop) (f : σ → α → σ) :
    ∀ (l : List α) (s : σ), P s → (∀ s a, a ∈ l → P s → P (f s a)) →
      P (l.foldl f s) := by
  intro l
  induction l with
  | nil => intro s hs _; exact hs
  | cons x xs ih =>
    intro s hs hstep
    simp only [List.foldl_cons]
    exact ih _ (hstep s x (List.mem_cons_self x xs) hs)
      (fun s' a ha => hstep s' a (List.mem_cons_of_mem x ha))

lemma refine_iter_inv (input outputFreq post divm divp n : Nat) (s : SearchSt)
    (frac : Int) (hpost : post = input / (divm + 1)) (hlo : 8000000 ≤ post)
    (hhi : post ≤ 16000000) (hn1 : 24 ≤ n) (hn2 : n ≤ 99) (hp : divp ≤ 127)
    (hf : 0 ≤ frac)
    (hs : ∀ c, s.best = some c → candOk input c) :
    ∀ c, (pll1_refine_iter outputFreq post divm divp n s frac).1.best =
      some c → candOk input c := by
  intro c hc
  unfold pll1_refine_iter at hc
  by_cases h1 : 8192 < frac
  · rw [if_pos h1] at hc
    exact hs c hc
  · rw [if_neg h1] at hc
    dsimp only at hc
    set v := ((post * (n + 1)) % U64 +
      (post * intToU64 frac) % U64 / 8192) % U64 with hv
    by_cases h2 : v < 400000000 ∨ 800000000 < v
    · rw [if_pos h2] at hc
      exact hs c hc
    · rw [if_neg h2] at hc
      by_cases h3 : (if outputFreq < v / (divp + 1) then
          v / (divp + 1) - outputFreq else outputFreq - v / (divp + 1)) <
          s.best_diff
      · rw [if_pos h3] at hc
        have hc2 : (⟨divm, n, divp, intToU32 frac⟩ : Pll1Cand) = c :=
          Option.some_inj.mp hc
        subst hc2
        push_neg at h1 h2
        have h64 : intToU64 frac = frac.toNat := by unfold intToU64; omega
        have h32 : intToU32 frac = frac.toNat := by unfold intToU32; omega
        have hfn : frac.toNat ≤ 8192 := by omega
        have hm1 : (post * (n + 1)) % U64 = post * (n + 1) := by
          apply Nat.mod_eq_of_lt
          calc post * (n + 1) ≤ 16000000 * 100 :=
                Nat.mul_le_mul hhi (by omega)
            _ < U64 := by norm_num [U64]
        have hm2 : (post * intToU64 frac) % U64 = post * frac.toNat := by
          rw [h64]
          apply Nat.mod_eq_of_lt
          calc post * frac.toNat ≤ 16000000 * 8192 :=
                Nat.mul_le_mul hhi hfn
            _ < U64 := by norm_num [U64]
        have hveq : v = post * (n + 1) + post * frac.toNat / 8192 := by
          rw [hv, hm1, hm2]
          apply Nat.mod_eq_of_lt
          have ha : post * (n + 1) ≤ 16000000 * 100 :=
            Nat.mul_le_mul hhi (by omega)
          have hb : post * frac.toNat / 8192 ≤ post * frac.toNat :=
            Nat.div_le_self _ _
          have hcb : post * frac.toNat ≤ 16000000 * 8192 :=
            Nat.mul_le_mul hhi hfn
          calc post * (n + 1) + post * frac.toNat / 8192 ≤
                16000000 * 100 + 16000000 * 8192 := by omega
            _ < U64 := by norm_num [U64]
        rw [hveq] at h2
        unfold candOk halfVco
        dsimp only
        rw [h32, ← hpost]
        exact ⟨hlo, hhi, hn1, hn2, hp, hfn, h2.1, h2.2⟩
      · rw [if_neg h3] at hc
        exact hs c hc

lemma refine_iter_frac_nonneg (outputFreq post divm divp n : Nat)
    (s : SearchSt) (frac : Int) (hf : 0 ≤ frac) :
    0 ≤ (pll1_refine_iter outputFreq post divm divp n s frac).2.1 := by
  unfold pll1_refine_iter
  by_cases h1 : 8192 < frac
  · rw [if_pos h1]
    exact hf
  · rw [if_neg h1]
    dsimp only
    repeat' split
    all_goals show (0 : Int) ≤ frac + 1
    all_goals omega

lemma frac_loop_inv (input outputFreq post divm divp n : Nat) (s : SearchSt)
    (frac : Int) (hpost : post = input / (divm + 1)) (hlo : 8000000 ≤ post)
    (hhi : post ≤ 16000000) (hn1 : 24 ≤ n) (hn2 : n ≤ 99) (hp : divp ≤ 127)
    (hf : 0 ≤ frac)
    (hs : ∀ c, s.best = some c → candOk input c) :
    ∀ c, (pll1_frac_loop outputFreq post divm divp n s frac).best = some c →
      candOk input c := by
  intro c hc
  unfold pll1_frac_loop at hc
  by_cases hdone : s.done
  · rw [if_pos hdone] at hc
    exact hs c hc
  · rw [if_neg hdone] at hc
    have h1 := refine_iter_inv input outputFreq post divm divp n s frac
      hpost hlo hhi hn1 hn2 hp hf hs
    have h2 := refine_iter_frac_nonneg outputFreq post divm divp n s frac hf
    rcases hiter : pll1_refine_iter outputFreq post divm divp n s frac with
      ⟨s1, f1, brk⟩
    rw [hiter] at hc h1 h2
    cases brk
    · have hc2 : (if s1.done then s1
          else (pll1_refine_iter outputFreq post divm divp n s1 f1).1).best =
          some c := hc
      by_cases hd1 : s1.done
      · rw [if_pos hd1] at hc2
        exact h1 c hc2
      · rw [if_neg hd1] at hc2
        exact refine_iter_inv input outputFreq post divm divp n s1 f1
          hpost hlo hhi hn1 hn2 hp h2 h1 c hc2
    · have hc2 : s1.best = some c := hc
      exact h1 c hc2

lemma divp_body_inv (input outputFreq divm post : Nat)
    (hpost : post = input / (divm + 1)) (hlo : 8000000 ≤ post)
    (hhi : post ≤ 16000000) (s : SearchSt) (divp : Nat) (hp : divp ≤ 127)
    (hs : ∀ c, s.best = some c → candOk input c) :
    ∀ c, (pll1_divp_body outputFreq input divm post s divp).best = some c →
      candOk input c := by
  intro c hc
  unfold pll1_divp_body at hc
  split at hc
  · exact hs c hc
  · dsimp only at hc
    split at hc
    · exact hs c hc
    · rename_i hn
      push_neg at hn
      have hin : 0 < input := by
        rcases Nat.eq_zero_or_pos input with h0 | h0
        · rw [h0] at hpost; simp [Nat.zero_div] at hpost; omega
        · exact h0
      set freq := outputFreq * (divm + 1) * (divp + 1) with hfreq
      have hn1 : 24 ≤ (((freq / input : Nat) : Int) - 1).toNat := by omega
      have hn2 : (((freq / input : Nat) : Int) - 1).toNat ≤ 99 := by omega
      have hf0 : (0 : Int) ≤ ((freq * 8192 / input : Nat) : Int) -
          (((freq / input : Nat) : Int) - 1 + 1) * 8192 := by
        have hd : (freq / input) * 8192 ≤ freq * 8192 / input := by
          rw [Nat.le_div_iff_mul_le hin]
          calc freq / input * 8192 * input = freq / input * input * 8192 := by
                ring
            _ ≤ freq * 8192 :=
                Nat.mul_le_mul_right _ (Nat.div_mul_le_self freq input)
        omega
      exact frac_loop_inv input outputFreq post divm divp _ s _ hpost hlo hhi
        hn1 hn2 hp hf0 hs c hc

lemma divm_body_inv (input outputFreq : Nat) (s : SearchSt) (k : Nat)
    (hs : ∀ c, s.best = some c → candOk input c) :
    ∀ c, (pll1_divm_body outputFreq input s k).best = some c →
      candOk input c := by
  intro c hc
  unfold pll1_divm_body at hc
  dsimp only at hc
  split at hc
  · exact hs c hc
  · split at hc
    · exact hs c hc
    · rename_i hpost
      push_neg at hpost
      refine foldl_inv
        (fun s' => ∀ c', s'.best = some c' → candOk input c')
        (pll1_divp_body outputFreq input (63 - k) (input / (63 - k + 1)))
        (List.range 128) s hs ?_ c hc
      intro s' a ha hs'
      exact divp_body_inv input outputFreq (63 - k) (input / (63 - k + 1))
        rfl hpost.1 hpost.2 s' a
        (by have := List.mem_range.mp ha; omega) hs'

/-- C3 (amended): every (M, N, P, FRAC) the reverse PLL1 search returns
— hence every OPP entry it synthesizes during
`stm32mp1_clk_compute_all_pll1_settings` — satisfies the domain
constraints: post-M reference in [8 MHz, 16 MHz], N in [24, 99], P in
[0, 127], FRAC in [0, 8192] and checked half-VCO in [400 MHz, 800 MHz].
The further claim that the forward math lands within ±1 Hz of the target
is refuted by `C3_counterexample`. -/
theorem C3_search_domain (input freq_khz : Nat) (c : Pll1Cand)
    (h : clk_compute_pll1_settings input freq_khz = some c) :
    candOk input c := by
  unfold clk_compute_pll1_settings at h
  dsimp only at h
  refine foldl_inv (fun s => ∀ c', s.best = some c' → candOk input c')
    (pll1_divm_body ((freq_khz * 1000) % U32) input) (List.range 64)
    ⟨none, UINT_MAX, false⟩ ?_ ?_ c h
  · intro c' hc'
    exact absurd hc' (by simp)
  · intro s a _ hs
    exact divm_body_inv input ((freq_khz * 1000) % U32) s a hs

/-- Closed witness for C3: the search result for 650000 kHz from 24 MHz
satisfies every domain constraint. -/
theorem C3_search_domain_witness : candOk 24000000 ⟨2, 80, 0, 2048⟩ :=
  C3_search_domain 24000000 650000 ⟨2, 80, 0, 2048⟩ (by decide)

end Stm32mp1
